import Mathlib

/-!
# discord_websocket: a verification development of `main.go`

The program is a minimal Discord gateway client.  The development has four
layers.

* `JSON` and the typed decoders: the part of Go's `encoding/json` the program
  relies on, at the level of parsed JSON values (struct tags, `omitempty`,
  field-name matching, `null` handling, type errors).
* `RawJSON`, `GoString`, `DiscordGatewayPayloadBytes`: the payload struct
  byte for byte, a JSON text with its layout and spelling, for what
  `json.Marshal` and `json.Unmarshal` do to a `json.RawMessage` and to a Go
  string; the JSON values above are its view.
* The sequential functions `getGatewayURL` and `sendGatewayMessage`.
* `World`, `Action`, `step`, `run`: the goroutines of `main` (main itself,
  the read loop, the heartbeat loops) as a labelled transition system; an
  execution is a list of actions, one per atomic step of one goroutine.
-/

namespace DiscordWebsocket

/-! ## JSON values -/

/-- A parsed JSON value.  `num` is a number literal written as an integer
(optional minus sign and digits only); `real` is any other number literal
(with a fraction or an exponent), kept as its text. -/
inductive JSON where
  | null : JSON
  | bool (b : Bool) : JSON
  | num (n : Int) : JSON
  | real (lit : String) : JSON
  | str (s : String) : JSON
  | arr (xs : List JSON) : JSON
  | obj (kvs : List (String × JSON)) : JSON

mutual
/-- Equality of JSON values is decidable. -/
def JSON.decEq : (a b : JSON) → Decidable (a = b)
  | .null, .null => isTrue rfl
  | .bool a, .bool b => if h : a = b then isTrue (by rw [h]) else isFalse (fun e => h (by cases e; rfl))
  | .num a, .num b => if h : a = b then isTrue (by rw [h]) else isFalse (fun e => h (by cases e; rfl))
  | .real a, .real b => if h : a = b then isTrue (by rw [h]) else isFalse (fun e => h (by cases e; rfl))
  | .str a, .str b => if h : a = b then isTrue (by rw [h]) else isFalse (fun e => h (by cases e; rfl))
  | .arr a, .arr b =>
    match JSON.decEqList a b with
    | isTrue h => isTrue (by rw [h])
    | isFalse h => isFalse (fun e => h (by cases e; rfl))
  | .obj a, .obj b =>
    match JSON.decEqMembers a b with
    | isTrue h => isTrue (by rw [h])
    | isFalse h => isFalse (fun e => h (by cases e; rfl))
  | .null, .bool _ | .null, .num _ | .null, .real _ | .null, .str _ | .null, .arr _ | .null, .obj _
  | .bool _, .null | .bool _, .num _ | .bool _, .real _ | .bool _, .str _ | .bool _, .arr _ | .bool _, .obj _
  | .num _, .null | .num _, .bool _ | .num _, .real _ | .num _, .str _ | .num _, .arr _ | .num _, .obj _
  | .real _, .null | .real _, .bool _ | .real _, .num _ | .real _, .str _ | .real _, .arr _ | .real _, .obj _
  | .str _, .null | .str _, .bool _ | .str _, .num _ | .str _, .real _ | .str _, .arr _ | .str _, .obj _
  | .arr _, .null | .arr _, .bool _ | .arr _, .num _ | .arr _, .real _ | .arr _, .str _ | .arr _, .obj _
  | .obj _, .null | .obj _, .bool _ | .obj _, .num _ | .obj _, .real _ | .obj _, .str _ | .obj _, .arr _ =>
    isFalse (fun e => by cases e)
/-- Equality of lists of JSON values. -/
def JSON.decEqList : (a b : List JSON) → Decidable (a = b)
  | [], [] => isTrue rfl
  | [], _ :: _ => isFalse (fun e => by cases e)
  | _ :: _, [] => isFalse (fun e => by cases e)
  | x :: xs, y :: ys =>
    match JSON.decEq x y, JSON.decEqList xs ys with
    | isTrue h1, isTrue h2 => isTrue (by rw [h1, h2])
    | isFalse h, _ => isFalse (fun e => h (by cases e; rfl))
    | _, isFalse h => isFalse (fun e => h (by cases e; rfl))
/-- Equality of member lists of JSON objects. -/
def JSON.decEqMembers : (a b : List (String × JSON)) → Decidable (a = b)
  | [], [] => isTrue rfl
  | [], _ :: _ => isFalse (fun e => by cases e)
  | _ :: _, [] => isFalse (fun e => by cases e)
  | (k, x) :: xs, (l, y) :: ys =>
    if hk : k = l then
      match JSON.decEq x y, JSON.decEqMembers xs ys with
      | isTrue h1, isTrue h2 => isTrue (by rw [hk, h1, h2])
      | isFalse h, _ => isFalse (fun e => h (by cases e; rfl))
      | _, isFalse h => isFalse (fun e => h (by cases e; rfl))
    else isFalse (fun e => hk (by cases e; rfl))
end

instance : DecidableEq JSON := JSON.decEq

/-- Errors of `encoding/json`. -/
inductive JsonError where
  /-- Error for empty input: "unexpected end of JSON input" / `io.EOF`. -/
  | unexpectedEnd : JsonError
  /-- The `*json.UnmarshalTypeError` raised while storing into `field`. -/
  | typeError (field : String) : JsonError
  /-- The `*json.UnsupportedTypeError` / `UnsupportedValueError` of `Marshal`. -/
  | unsupported : JsonError
  deriving DecidableEq, Repr

instance {ε α : Type} [DecidableEq ε] [DecidableEq α] : DecidableEq (Except ε α)
  | .ok a, .ok b => if h : a = b then isTrue (by rw [h]) else isFalse (fun e => h (by cases e; rfl))
  | .error a, .error b => if h : a = b then isTrue (by rw [h]) else isFalse (fun e => h (by cases e; rfl))
  | .ok _, .error _ => isFalse (fun e => by cases e)
  | .error _, .ok _ => isFalse (fun e => by cases e)

/-- Range of Go's `int` on the 64-bit platforms the program is built for. -/
def inInt64 (n : Int) : Prop := -9223372036854775808 ≤ n ∧ n ≤ 9223372036854775807

instance (n : Int) : Decidable (inInt64 n) := by unfold inInt64; infer_instance

/-- Simple case folding of one rune as in `encoding/json`'s `foldRune`: the
smallest rune of the fold orbit.  Only the orbits that contain an ASCII
letter matter for ASCII field names: `k K U+212A` and `s S U+017F`. -/
def foldRune (c : Char) : Char :=
  if 'a' ≤ c ∧ c ≤ 'z' then Char.ofNat (c.toNat - 32)
  else if c = Char.ofNat 0x17F then 'S'
  else if c = Char.ofNat 0x212A then 'K'
  else c

/-- Folded form of a key, `encoding/json`'s `foldName`. -/
def foldName (s : String) : List Char := s.data.map foldRune

/-- Field lookup of the struct decoder: an exact match of the key against the
field names, otherwise the first field whose folded name equals the folded key. -/
def matchField {F : Type} (fields : List (String × F)) (key : String) : Option F :=
  match fields.find? (fun f => decide (f.1 = key)) with
  | some f => some f.2
  | none =>
    match fields.find? (fun f => decide (foldName f.1 = foldName key)) with
    | some f => some f.2
    | none => none

/-- Decoding an object into a struct: the members are visited in order; a
member whose key matches no field is skipped, a matching one is stored with
`set`, a later duplicate overwrites an earlier one.  A type error makes the
whole decode return an error. -/
def decodeFields {F S : Type} (fields : List (String × F))
    (set : S → F → JSON → Except JsonError S) :
    List (String × JSON) → S → Except JsonError S
  | [], s => .ok s
  | (k, v) :: rest, s =>
    match matchField fields k with
    | none => decodeFields fields set rest s
    | some f =>
      match set s f v with
      | .error e => .error e
      | .ok s' => decodeFields fields set rest s'

/-- Decoding a JSON value into a Go struct value `s`: `null` leaves the
struct untouched, an object is decoded member-wise, anything else is a type
error. -/
def decodeStruct {F S : Type} (name : String) (fields : List (String × F))
    (set : S → F → JSON → Except JsonError S) (v : JSON) (s : S) : Except JsonError S :=
  match v with
  | .null => .ok s
  | .obj kvs => decodeFields fields set kvs s
  | _ => .error (.typeError name)

/-- Storing into an `int`: `null` keeps the current value, an integer literal
in range is stored, anything else is a type error. -/
def decodeInt (field : String) (v : JSON) (cur : Int) : Except JsonError Int :=
  match v with
  | .null => .ok cur
  | .num n => if inInt64 n then .ok n else .error (.typeError field)
  | _ => .error (.typeError field)

/-- Storing into a `string`. -/
def decodeString (field : String) (v : JSON) (cur : String) : Except JsonError String :=
  match v with
  | .null => .ok cur
  | .str s => .ok s
  | _ => .error (.typeError field)

/-- Storing into a `*int`: `null` sets the pointer to nil. -/
def decodeIntPtr (field : String) (v : JSON) : Except JsonError (Option Int) :=
  match v with
  | .null => .ok none
  | .num n => if inInt64 n then .ok (some n) else .error (.typeError field)
  | _ => .error (.typeError field)

/-- Storing into a `*string`. -/
def decodeStringPtr (field : String) (v : JSON) : Except JsonError (Option String) :=
  match v with
  | .null => .ok none
  | .str s => .ok (some s)
  | _ => .error (.typeError field)

/-! ## `getGatewayURL` -/

/-- The anonymous struct `struct { URL string }` with tag `json:"url"` of `getGatewayURL`. -/
structure GatewayResult where
  URL : String
  deriving DecidableEq, Repr

/-- Field store for `GatewayResult`. -/
def GatewayResult.set (r : GatewayResult) (_f : Unit) (v : JSON) : Except JsonError GatewayResult :=
  match decodeString "url" v r.URL with
  | .error e => .error e
  | .ok s => .ok { r with URL := s }

/-- The call `json.NewDecoder(resp.Body).Decode(&result)`.  The body is
`none` when it holds no JSON value (empty or syntactically invalid), else the
first value of the stream. -/
def decodeGatewayResult (body : Option JSON) (result : GatewayResult) : Except JsonError GatewayResult :=
  match body with
  | none => .error .unexpectedEnd
  | some v => decodeStruct "result" [("url", ())] GatewayResult.set v result

/-- Errors `getGatewayURL` can return. -/
inductive GatewayError where
  | http : GatewayError
  | json (e : JsonError) : GatewayError
  deriving DecidableEq, Repr

/-- Function `getGatewayURL`: `resp` is what `http.Get` returned, an error or
the response body. -/
def getGatewayURL (resp : Except Unit (Option JSON)) : Except GatewayError String :=
  match resp with
  | .error _ => .error .http
  | .ok body =>
    match decodeGatewayResult body { URL := "" } with
    | .error e => .error (.json e)
    | .ok result => .ok (result.URL ++ "?encoding=json&v=9")

/-! ## The wire types -/

/-- The struct `DiscordGatewayPayload`.  `Data` is a `json.RawMessage`: `none`
is the empty message (field absent), `some v` holds the text of the JSON
value `v`.  `Seq` and `Event` are pointers, `none` is nil. -/
structure DiscordGatewayPayload where
  Op : Int
  Data : Option JSON
  Seq : Option Int
  Event : Option String
  ErrCode : Int
  Message : String
  deriving DecidableEq

/-- The zero value `var payload DiscordGatewayPayload`. -/
def DiscordGatewayPayload.zero : DiscordGatewayPayload :=
  { Op := 0, Data := none, Seq := none, Event := none, ErrCode := 0, Message := "" }

/-- Every `int` field holds a Go `int`. -/
def DiscordGatewayPayload.wf (p : DiscordGatewayPayload) : Prop :=
  inInt64 p.Op ∧ (∀ s, p.Seq = some s → inInt64 s) ∧ inInt64 p.ErrCode

/-- The fields of `DiscordGatewayPayload`. -/
inductive PayloadField where
  | op | d | s | t | code | message
  deriving DecidableEq, Repr

/-- The JSON names given by the struct tags of `DiscordGatewayPayload`. -/
def payloadFields : List (String × PayloadField) :=
  [("op", .op), ("d", .d), ("s", .s), ("t", .t), ("code", .code), ("message", .message)]

/-- Field store for `DiscordGatewayPayload`.  A `json.RawMessage` receives the
text of whatever value is there, `null` included. -/
def DiscordGatewayPayload.set (p : DiscordGatewayPayload) (f : PayloadField) (v : JSON) :
    Except JsonError DiscordGatewayPayload :=
  match f with
  | .op =>
    match decodeInt "op" v p.Op with
    | .error e => .error e
    | .ok n => .ok { p with Op := n }
  | .d => .ok { p with Data := some v }
  | .s =>
    match decodeIntPtr "s" v with
    | .error e => .error e
    | .ok n => .ok { p with Seq := n }
  | .t =>
    match decodeStringPtr "t" v with
    | .error e => .error e
    | .ok n => .ok { p with Event := n }
  | .code =>
    match decodeInt "code" v p.ErrCode with
    | .error e => .error e
    | .ok n => .ok { p with ErrCode := n }
  | .message =>
    match decodeString "message" v p.Message with
    | .error e => .error e
    | .ok n => .ok { p with Message := n }

/-- Decoding a JSON value into a fresh `DiscordGatewayPayload`. -/
def unmarshalPayload (v : JSON) : Except JsonError DiscordGatewayPayload :=
  decodeStruct "DiscordGatewayPayload" payloadFields DiscordGatewayPayload.set v .zero

/-- Encoding a `DiscordGatewayPayload` with its struct tags: `op` always,
the `omitempty` fields only when not empty (a RawMessage of length 0, a nil
pointer, the integer 0, the empty string). -/
def marshalPayload (p : DiscordGatewayPayload) : JSON :=
  .obj ([("op", .num p.Op)]
    ++ (match p.Data with | none => [] | some v => [("d", v)])
    ++ (match p.Seq with | none => [] | some n => [("s", .num n)])
    ++ (match p.Event with | none => [] | some e => [("t", .str e)])
    ++ (if p.ErrCode = 0 then [] else [("code", .num p.ErrCode)])
    ++ (if p.Message = "" then [] else [("message", .str p.Message)]))

/-- The struct `DiscordGatewayIdentity`, its nested `Properties` flattened. -/
structure DiscordGatewayIdentity where
  Token : String
  OS : String
  Browser : String
  Device : String
  Intents : Int
  deriving DecidableEq, Repr

/-- Encoding a `DiscordGatewayIdentity` with its struct tags. -/
def marshalIdentity (i : DiscordGatewayIdentity) : JSON :=
  .obj [("token", .str i.Token),
        ("properties", .obj [("$os", .str i.OS), ("$browser", .str i.Browser), ("$device", .str i.Device)]),
        ("intents", .num i.Intents)]

/-- The call `json.Marshal` on a `DiscordGatewayIdentity`: a struct of strings
and an int always encodes. -/
def jsonMarshalIdentity (i : DiscordGatewayIdentity) : Except JsonError JSON :=
  .ok (marshalIdentity i)

/-- The struct `DiscordGatewayHeartbeat`. -/
structure DiscordGatewayHeartbeat where
  Op : Int
  D : Int
  deriving DecidableEq, Repr

/-- Encoding a `DiscordGatewayHeartbeat` with its struct tags. -/
def marshalHeartbeat (h : DiscordGatewayHeartbeat) : JSON :=
  .obj [("op", .num h.Op), ("d", .num h.D)]

/-- The anonymous struct `struct { HeartbeatInterval int }` of the Hello handling. -/
structure HelloData where
  HeartbeatInterval : Int
  deriving DecidableEq, Repr

/-- Field store for `HelloData`. -/
def HelloData.set (d : HelloData) (_f : Unit) (v : JSON) : Except JsonError HelloData :=
  match decodeInt "heartbeat_interval" v d.HeartbeatInterval with
  | .error e => .error e
  | .ok n => .ok { d with HeartbeatInterval := n }

/-- The call `json.Unmarshal(payload.Data, &data)` of the Hello handling: an
empty RawMessage is "unexpected end of JSON input". -/
def unmarshalHello (raw : Option JSON) (data : HelloData) : Except JsonError HelloData :=
  match raw with
  | none => .error .unexpectedEnd
  | some v => decodeStruct "data" [("heartbeat_interval", ())] HelloData.set v data

/-! ## `sendGatewayMessage` -/

/-- Errors of the websocket connection. -/
inductive WsError where
  /-- The transport failed or is closed. -/
  | transport : WsError
  /-- The JSON codec failed. -/
  | json (e : JsonError) : WsError
  deriving DecidableEq, Repr

/-- A `*websocket.Conn` as a writer sees it: the messages handed to
`WriteJSON` so far, and the error the transport answers a write with (`none`
while it is healthy). -/
structure Conn where
  sent : List JSON
  failing : Option WsError
  deriving DecidableEq

/-- The call `conn.WriteJSON(v)` for an already encoded value. -/
def Conn.WriteJSON (c : Conn) (v : JSON) : Conn × Option WsError :=
  ({ c with sent := c.sent ++ [v] }, c.failing)

/-- The anonymous struct `message` of `sendGatewayMessage`, encoded: `op` and
`d`, neither with `omitempty`. -/
def gatewayMessage (op : Int) (payload : JSON) : JSON :=
  .obj [("op", .num op), ("d", payload)]

/-- What `sendGatewayMessage` works on: the global `sendMutex` (`true` when
locked) and the connection. -/
structure SendState where
  sendMutex : Bool
  conn : Conn
  deriving DecidableEq

/-- Function `sendGatewayMessage`.  `marshal` is `json.Marshal` at the type of
`data`.  The result is `none` when `sendMutex.Lock()` blocks, else the state
after the deferred `Unlock` together with the returned error. -/
def sendGatewayMessage {α : Type} (marshal : α → Except JsonError JSON)
    (op : Int) (data : α) (s : SendState) : Option (SendState × Option WsError) :=
  if s.sendMutex then none
  else
    let locked : SendState := { s with sendMutex := true }
    match marshal data with
    | .error e => some ({ locked with sendMutex := false }, some (.json e))
    | .ok payload =>
      let message := gatewayMessage op payload
      let r := locked.conn.WriteJSON message
      some ({ sendMutex := false, conn := r.1 }, r.2)

/-! ## The goroutines of `main` -/

/-- Identity of a dialed connection: the initial connection is 0, the k-th
successful dial of the reconnect loop yields connection k. -/
abbrev ConnId := Nat

/-- Who writes to a connection. -/
inductive Writer where
  | main : Writer
  | heartbeat (i : Nat) : Writer
  deriving DecidableEq, Repr

/-- Wrap-around of a 64-bit signed integer. -/
def wrapInt64 (n : Int) : Int := (n + 9223372036854775808) % 18446744073709551616 - 9223372036854775808

/-- The constant `time.Second`, in nanoseconds. -/
def timeSecond : Int := 1000000000

/-- The constant `time.Millisecond`, in nanoseconds. -/
def timeMillisecond : Int := 1000000

/-- What the program does to the outside, in the order it does it. -/
inductive Event where
  /-- `ReadJSON` on connection `c` returned an error. -/
  | readError (c : ConnId) : Event
  /-- `ReadJSON` on connection `c` returned payload `p`. -/
  | recv (c : ConnId) (p : DiscordGatewayPayload) : Event
  /-- `Dial(gatewayURL, nil)` was called in the reconnect loop, with its result. -/
  | dial (url : String) (r : Option ConnId) : Event
  /-- A `time.Sleep` of `ns` nanoseconds. -/
  | sleep (ns : Int) : Event
  /-- The Hello payload did not unmarshal. -/
  | unmarshalError (e : JsonError) : Event
  /-- The statement `go func() { ... }()` started heartbeat loop `i`. -/
  | startHeartbeat (i : Nat) (interval : Int) : Event
  /-- Writer `w` entered `WriteJSON` on connection `c` with message `msg`;
  `mutexHeld` tells whether `w` holds `sendMutex` at that moment. -/
  | writeBegin (w : Writer) (c : ConnId) (msg : JSON) (mutexHeld : Bool) : Event
  /-- The `WriteJSON` of writer `w` on connection `c` returned. -/
  | writeEnd (w : Writer) (c : ConnId) (failed : Bool) : Event
  deriving DecidableEq

/-- Where the main goroutine is, from the call at line 119 on. -/
inductive MainPc where
  /-- Before `sendGatewayMessage(wsConn, 2, identity)`. -/
  | start : MainPc
  /-- Inside `sendGatewayMessage` after `sendMutex.Lock()`, with argument `conn`. -/
  | locked (conn : Option ConnId) : MainPc
  /-- Inside `conn.WriteJSON(message)`. -/
  | writing (conn : ConnId) : MainPc
  /-- Blocked in `<-sigChan`. -/
  | waiting : MainPc
  deriving DecidableEq, Repr

/-- Where the read loop goroutine is. -/
inductive ReaderPc where
  /-- Blocked in `wsConn.ReadJSON(&payload)`. -/
  | reading : ReaderPc
  /-- In the reconnect loop, about to call `Dial`. -/
  | dialing : ReaderPc
  /-- Left through the `return` of the Hello handling. -/
  | returned : ReaderPc
  deriving DecidableEq, Repr

/-- Where a heartbeat goroutine is. -/
inductive HeartbeatPc where
  /-- In `time.Sleep`. -/
  | sleeping : HeartbeatPc
  /-- Inside `wsConn.WriteJSON(...)` on connection `conn`. -/
  | writing (conn : ConnId) : HeartbeatPc
  /-- Left through `return` after a write error. -/
  | returned : HeartbeatPc
  deriving DecidableEq, Repr

/-- A heartbeat goroutine: the captured `data.HeartbeatInterval`, its program
point, and (not program state, kept for stating properties) the connection on
which the Hello that started it was read. -/
structure Heartbeat where
  interval : Int
  bornOn : ConnId
  pc : HeartbeatPc
  deriving DecidableEq, Repr

/-- Whether the process runs. -/
inductive Status where
  | running : Status
  /-- The function `main` returned after a signal. -/
  | exited : Status
  /-- A goroutine panicked calling `WriteJSON` on a nil `*websocket.Conn`. -/
  | panicked : Status
  deriving DecidableEq, Repr

/-- The state of the process once `main` has dialed and started the read loop. -/
structure World where
  status : Status
  /-- The local `gatewayURL` of `main`. -/
  gatewayURL : String
  /-- The global `TOKEN`. -/
  token : String
  /-- The variable `wsConn`, shared by all goroutines; nil after a failed dial. -/
  wsConn : Option ConnId
  /-- The identity the next successful dial returns. -/
  nextConn : ConnId
  /-- The global `sendMutex`: its holder, if locked. -/
  sendMutex : Option Writer
  mainPc : MainPc
  reader : ReaderPc
  heartbeats : List Heartbeat
  trace : List Event
  deriving DecidableEq

/-- The value `identity` built in `main`. -/
def identityOf (token : String) : DiscordGatewayIdentity :=
  { Token := token, OS := "linux", Browser := "my_library", Device := "my_library", Intents := 32767 }

/-- The heartbeat value written at line 94. -/
def heartbeatValue : DiscordGatewayHeartbeat := { Op := 1, D := 42 }

/-- Errors that make `main` call `log.Fatal`. -/
inductive StartupError where
  | getGatewayURL (e : GatewayError) : StartupError
  | dial : StartupError
  deriving DecidableEq, Repr

/-- The world right after a successful start against the gateway URL `url`:
the initial connection is current, the read loop is blocked in its first
`ReadJSON`, main is about to send the Identify. -/
def init (token url : String) : World :=
  { status := .running, gatewayURL := url, token := token, wsConn := some 0, nextConn := 1,
    sendMutex := none, mainPc := .start, reader := .reading, heartbeats := [], trace := [] }

/-- Lines 47 to 60 of `main`: resolve the URL, dial, start the read loop. -/
def boot (token : String) (resp : Except Unit (Option JSON)) (dialOk : Bool) : Except StartupError World :=
  match getGatewayURL resp with
  | .error e => .error (.getGatewayURL e)
  | .ok url => if dialOk then .ok (init token url) else .error .dial

/-- One atomic step of one goroutine, with what the environment answers. -/
inductive Action where
  /-- Main evaluates the arguments of `sendGatewayMessage` and locks `sendMutex`. -/
  | mainLock : Action
  /-- Main marshals `identity` and enters `conn.WriteJSON(message)`. -/
  | mainWrite : Action
  /-- The `WriteJSON` of main returns; the deferred `Unlock` runs. -/
  | mainReturn (failed : Bool) : Action
  /-- A SIGINT or SIGTERM arrives while main waits for it. -/
  | signal : Action
  /-- The `ReadJSON` of the read loop returns: `none` for a transport error or
  a message that is not JSON, else the JSON value of the message. -/
  | read (msg : Option JSON) : Action
  /-- The `Dial` of the reconnect loop returns. -/
  | dial (ok : Bool) : Action
  /-- The sleep of heartbeat loop `i` ends and it enters `WriteJSON`. -/
  | hbWake (i : Nat) : Action
  /-- The `WriteJSON` of heartbeat loop `i` returns. -/
  | hbReturn (i : Nat) (failed : Bool) : Action
  deriving DecidableEq

/-- The call `wsConn.ReadJSON(&payload)` on a fresh payload. -/
def readJSON (msg : Option JSON) : Except WsError DiscordGatewayPayload :=
  match msg with
  | none => .error .transport
  | some v =>
    match unmarshalPayload v with
    | .error e => .error (.json e)
    | .ok p => .ok p

/-- Lines 79 to 101: what the read loop does with a payload read on
connection `c`. -/
def handlePayload (w : World) (c : ConnId) (p : DiscordGatewayPayload) : World :=
  let w1 := { w with trace := w.trace ++ [.recv c p] }
  if p.Op = 10 then
    match unmarshalHello p.Data { HeartbeatInterval := 0 } with
    | .error e => { w1 with reader := .returned, trace := w1.trace ++ [.unmarshalError e] }
    | .ok data =>
      { w1 with
        heartbeats := w1.heartbeats ++
          [{ interval := data.HeartbeatInterval, bornOn := c, pc := .sleeping }],
        trace := w1.trace ++ [.startHeartbeat w1.heartbeats.length data.HeartbeatInterval] }
  else w1

/-- The read loop at line 63, when `ReadJSON` returns. -/
def readerRead (w : World) (c : ConnId) (msg : Option JSON) : World :=
  match readJSON msg with
  | .error _ => { w with reader := .dialing, trace := w.trace ++ [.readError c] }
  | .ok p => handlePayload w c p

/-- The reconnect loop at line 69, when `Dial` returns: on failure `wsConn`
is nil and the loop sleeps a second; on success the read loop continues. -/
def readerDial (w : World) (ok : Bool) : World :=
  if ok then
    { w with wsConn := some w.nextConn, nextConn := w.nextConn + 1, reader := .reading,
             trace := w.trace ++ [.dial w.gatewayURL (some w.nextConn)] }
  else
    { w with wsConn := none,
             trace := w.trace ++ [.dial w.gatewayURL none, .sleep timeSecond] }

/-- Lines 93 and 94 of heartbeat loop `i`: the sleep ends and `WriteJSON` is
called on the current value of the captured variable `wsConn`; on a nil
connection the call panics. -/
def heartbeatWake (w : World) (i : Nat) (hb : Heartbeat) : World :=
  let slept : Event := .sleep (wrapInt64 (hb.interval * timeMillisecond))
  match w.wsConn with
  | none => { w with status := .panicked, trace := w.trace ++ [slept] }
  | some c =>
    { w with
      heartbeats := w.heartbeats.set i { hb with pc := .writing c },
      trace := w.trace ++ [slept,
        .writeBegin (.heartbeat i) c (marshalHeartbeat heartbeatValue)
          (decide (w.sendMutex = some (.heartbeat i)))] }

/-- Lines 94 to 98 of heartbeat loop `i`: `WriteJSON` returns. -/
def heartbeatReturn (w : World) (i : Nat) (hb : Heartbeat) (c : ConnId) (failed : Bool) : World :=
  { w with
    heartbeats := w.heartbeats.set i { hb with pc := if failed then .returned else .sleeping },
    trace := w.trace ++ [.writeEnd (.heartbeat i) c failed] }

/-- Main inside `sendGatewayMessage(conn, 2, identity)` after the lock:
marshal, build the message, enter `WriteJSON`. -/
def mainWrite (w : World) (conn : Option ConnId) : World :=
  match jsonMarshalIdentity (identityOf w.token) with
  | .error _ => { w with sendMutex := none, mainPc := .waiting }
  | .ok payload =>
    match conn with
    | none => { w with status := .panicked }
    | some c =>
      { w with
        mainPc := .writing c,
        trace := w.trace ++ [.writeBegin .main c (gatewayMessage 2 payload)
          (decide (w.sendMutex = some .main))] }

/-- The transition function: `none` when the action is not enabled. -/
def step (w : World) (a : Action) : Option World :=
  if w.status ≠ .running then none
  else
    match a with
    | .mainLock =>
      match w.mainPc, w.sendMutex with
      | .start, none => some { w with sendMutex := some .main, mainPc := .locked w.wsConn }
      | _, _ => none
    | .mainWrite =>
      match w.mainPc with
      | .locked conn => some (mainWrite w conn)
      | _ => none
    | .mainReturn failed =>
      match w.mainPc with
      | .writing c =>
        some { w with sendMutex := none, mainPc := .waiting,
                      trace := w.trace ++ [.writeEnd .main c failed] }
      | _ => none
    | .signal =>
      match w.mainPc with
      | .waiting => some { w with status := .exited }
      | _ => none
    | .read msg =>
      match w.reader, w.wsConn with
      | .reading, some c => some (readerRead w c msg)
      | _, _ => none
    | .dial ok =>
      match w.reader with
      | .dialing => some (readerDial w ok)
      | _ => none
    | .hbWake i =>
      match w.heartbeats[i]? with
      | some hb =>
        match hb.pc with
        | .sleeping => some (heartbeatWake w i hb)
        | _ => none
      | none => none
    | .hbReturn i failed =>
      match w.heartbeats[i]? with
      | some hb =>
        match hb.pc with
        | .writing c => some (heartbeatReturn w i hb c failed)
        | _ => none
      | none => none

/-- Running a list of actions. -/
def run (w : World) : List Action → Option World
  | [] => some w
  | a :: rest =>
    match step w a with
    | none => none
    | some w' => run w' rest

/-- The Hello message `{"op":10,"d":{"heartbeat_interval":n}}`. -/
def helloMessage (n : Int) : JSON :=
  .obj [("op", .num 10), ("d", .obj [("heartbeat_interval", .num n)])]

/-! ## Observations on traces -/

/-- The `op` member of an envelope. -/
def envelopeOp (msg : JSON) : Option Int :=
  match msg with
  | .obj kvs =>
    match kvs.lookup "op" with
    | some (.num n) => some n
    | _ => none
  | _ => none

/-- The `d` member of an envelope. -/
def envelopeData (msg : JSON) : Option JSON :=
  match msg with
  | .obj kvs => kvs.lookup "d"
  | _ => none

/-- An Identify envelope (op = 2) was handed to `WriteJSON` on connection `c`. -/
def identifySentOn (c : ConnId) (trace : List Event) : Bool :=
  trace.any fun e =>
    match e with
    | .writeBegin _ c' msg _ => decide (c' = c) && decide (envelopeOp msg = some 2)
    | _ => false

/-- A Hello envelope (op = 10) was read on connection `c`. -/
def helloReceivedOn (c : ConnId) (trace : List Event) : Bool :=
  trace.any fun e =>
    match e with
    | .recv c' p => decide (c' = c) && decide (p.Op = 10)
    | _ => false

/-- The sequence number of the most recently received envelope that carried one. -/
def lastSeq : List Event → Option Int
  | [] => none
  | e :: rest =>
    match lastSeq rest with
    | some s => some s
    | none =>
      match e with
      | .recv _ p => p.Seq
      | _ => none

/-- The envelopes written by heartbeat loops, in order. -/
def heartbeatEnvelopes : List Event → List JSON
  | [] => []
  | .writeBegin (.heartbeat _) _ msg _ :: rest => msg :: heartbeatEnvelopes rest
  | _ :: rest => heartbeatEnvelopes rest

/-- Every write in the trace was entered by a writer holding `sendMutex`. -/
def allWritesUnderMutex (trace : List Event) : Bool :=
  trace.all fun e =>
    match e with
    | .writeBegin _ _ _ held => held
    | _ => true

/-- No write is entered on a connection while another write on the same
connection has not returned; `pending` lists the writes in progress. -/
def serializedFrom : List (Writer × ConnId) → List Event → Bool
  | _, [] => true
  | pending, .writeBegin w c _ _ :: rest =>
    !(pending.any fun o => decide (o.2 = c)) && serializedFrom ((w, c) :: pending) rest
  | pending, .writeEnd w c _ :: rest => serializedFrom (pending.erase (w, c)) rest
  | pending, _ :: rest => serializedFrom pending rest

/-- The writes of a trace reach each connection one after the other. -/
def serialized (trace : List Event) : Bool := serializedFrom [] trace

/-- The number of `Dial` calls in a trace. -/
def dialCount (trace : List Event) : Nat :=
  trace.countP fun e =>
    match e with
    | .dial _ _ => true
    | _ => false

/-- The number of one-second sleeps in a trace. -/
def secondSleepCount (trace : List Event) : Nat :=
  trace.countP fun e =>
    match e with
    | .sleep ns => decide (ns = timeSecond)
    | _ => false

/-- The events of `n` failed dial attempts, each followed by its one-second sleep. -/
def failedDials (url : String) : Nat → List Event
  | 0 => []
  | n + 1 => Event.dial url none :: Event.sleep timeSecond :: failedDials url n

/-- Token used in the concrete executions below. -/
def sampleToken : String := "token"

/-- Gateway URL used in the concrete executions below. -/
def sampleURL : String := "wss://gateway.example?encoding=json&v=9"

/-- The world after a Hello with interval 41250 was read on connection 0, the
next read failed and the first redial succeeded: heartbeat loop 0, started on
connection 0, is asleep and connection 1 is current. -/
def reconnectedWorld : World :=
  { status := .running, gatewayURL := sampleURL, token := sampleToken, wsConn := some 1,
    nextConn := 2, sendMutex := none, mainPc := .start, reader := .reading,
    heartbeats := [{ interval := 41250, bornOn := 0, pc := .sleeping }],
    trace := [.recv 0 { Op := 10, Data := some (.obj [("heartbeat_interval", .num 41250)]),
                        Seq := none, Event := none, ErrCode := 0, Message := "" },
              .startHeartbeat 0 41250, .readError 0, .dial sampleURL (some 1)] }

/-- The world after a Hello with interval 41250 and a dispatch with sequence
number 7 were read on connection 0 and heartbeat loop 0 woke up and entered
`WriteJSON`. -/
def heartbeatSentWorld : World :=
  { status := .running, gatewayURL := sampleURL, token := sampleToken, wsConn := some 0,
    nextConn := 1, sendMutex := none, mainPc := .start, reader := .reading,
    heartbeats := [{ interval := 41250, bornOn := 0, pc := .writing 0 }],
    trace := [.recv 0 { Op := 10, Data := some (.obj [("heartbeat_interval", .num 41250)]),
                        Seq := none, Event := none, ErrCode := 0, Message := "" },
              .startHeartbeat 0 41250,
              .recv 0 { Op := 0, Data := some (.obj []), Seq := some 7,
                        Event := some "MESSAGE_CREATE", ErrCode := 0, Message := "" },
              .sleep 41250000000,
              .writeBegin (.heartbeat 0) 0 (.obj [("op", .num 1), ("d", .num 42)]) false] }

/-! ## The bytes of a `json.RawMessage` and of a Go string -/

/-- One insignificant whitespace byte of a JSON text. -/
inductive Ws where
  | space | tab | lf | cr
  deriving DecidableEq, Repr

/-- One character of a JSON string literal together with the way it is
written: `escape = none` when the character stands for itself, `some seq`
when it is written as a backslash followed by `seq` (`n`, `u003c`, ...). -/
structure RawChar where
  char : Char
  escape : Option String
  deriving DecidableEq, Repr

/-- The JSON literals without structure.  As in `JSON`, `num` is an integer
literal in the form `strconv` writes it and `real` any other number literal,
kept as its text. -/
inductive Atom where
  | null : Atom
  | bool (b : Bool) : Atom
  | num (n : Int) : Atom
  | real (lit : String) : Atom
  deriving DecidableEq, Repr

/-- A key of an object with the whitespace before it and between it and the colon. -/
structure RawKey where
  before : List Ws
  name : List RawChar
  after : List Ws
  deriving DecidableEq, Repr

/-- A valid JSON text, byte for byte: the JSON value together with its
layout (every run of insignificant whitespace) and the spelling of every
string character.  `arr` and `obj` carry the whitespace that follows the
opening bracket; `ws` is a value with whitespace around it.  Bytes that are
not valid UTF-8 inside a string literal are not represented; compaction
copies them unchanged. -/
inductive RawJSON where
  | atom (a : Atom) : RawJSON
  | str (s : List RawChar) : RawJSON
  | arr (pad : List Ws) (items : List RawJSON) : RawJSON
  | obj (pad : List Ws) (members : List (RawKey × RawJSON)) : RawJSON
  | ws (before : List Ws) (v : RawJSON) (after : List Ws) : RawJSON

mutual
/-- Equality of JSON texts is decidable. -/
def RawJSON.decEq : (a b : RawJSON) → Decidable (a = b)
  | .atom a, .atom b => if h : a = b then isTrue (by rw [h]) else isFalse (fun e => h (by cases e; rfl))
  | .str a, .str b => if h : a = b then isTrue (by rw [h]) else isFalse (fun e => h (by cases e; rfl))
  | .arr p a, .arr q b =>
    if hp : p = q then
      match RawJSON.decEqList a b with
      | isTrue h => isTrue (by rw [hp, h])
      | isFalse h => isFalse (fun e => h (by cases e; rfl))
    else isFalse (fun e => hp (by cases e; rfl))
  | .obj p a, .obj q b =>
    if hp : p = q then
      match RawJSON.decEqMembers a b with
      | isTrue h => isTrue (by rw [hp, h])
      | isFalse h => isFalse (fun e => h (by cases e; rfl))
    else isFalse (fun e => hp (by cases e; rfl))
  | .ws p a r, .ws q b s =>
    if hp : p = q then
      if hr : r = s then
        match RawJSON.decEq a b with
        | isTrue h => isTrue (by rw [hp, hr, h])
        | isFalse h => isFalse (fun e => h (by cases e; rfl))
      else isFalse (fun e => hr (by cases e; rfl))
    else isFalse (fun e => hp (by cases e; rfl))
  | .atom _, .str _ | .atom _, .arr _ _ | .atom _, .obj _ _ | .atom _, .ws _ _ _
  | .str _, .atom _ | .str _, .arr _ _ | .str _, .obj _ _ | .str _, .ws _ _ _
  | .arr _ _, .atom _ | .arr _ _, .str _ | .arr _ _, .obj _ _ | .arr _ _, .ws _ _ _
  | .obj _ _, .atom _ | .obj _ _, .str _ | .obj _ _, .arr _ _ | .obj _ _, .ws _ _ _
  | .ws _ _ _, .atom _ | .ws _ _ _, .str _ | .ws _ _ _, .arr _ _ | .ws _ _ _, .obj _ _ =>
    isFalse (fun e => by cases e)
/-- Equality of lists of JSON texts. -/
def RawJSON.decEqList : (a b : List RawJSON) → Decidable (a = b)
  | [], [] => isTrue rfl
  | [], _ :: _ => isFalse (fun e => by cases e)
  | _ :: _, [] => isFalse (fun e => by cases e)
  | x :: xs, y :: ys =>
    match RawJSON.decEq x y, RawJSON.decEqList xs ys with
    | isTrue h1, isTrue h2 => isTrue (by rw [h1, h2])
    | isFalse h, _ => isFalse (fun e => h (by cases e; rfl))
    | _, isFalse h => isFalse (fun e => h (by cases e; rfl))
/-- Equality of member lists of JSON texts. -/
def RawJSON.decEqMembers : (a b : List (RawKey × RawJSON)) → Decidable (a = b)
  | [], [] => isTrue rfl
  | [], _ :: _ => isFalse (fun e => by cases e)
  | _ :: _, [] => isFalse (fun e => by cases e)
  | (k, x) :: xs, (l, y) :: ys =>
    if hk : k = l then
      match RawJSON.decEq x y, RawJSON.decEqMembers xs ys with
      | isTrue h1, isTrue h2 => isTrue (by rw [hk, h1, h2])
      | isFalse h, _ => isFalse (fun e => h (by cases e; rfl))
      | _, isFalse h => isFalse (fun e => h (by cases e; rfl))
    else isFalse (fun e => hk (by cases e; rfl))
end

instance : DecidableEq RawJSON := RawJSON.decEq

/-- The byte of a whitespace character. -/
def Ws.char : Ws → Char
  | .space => Char.ofNat 0x20
  | .tab => Char.ofNat 0x09
  | .lf => Char.ofNat 0x0A
  | .cr => Char.ofNat 0x0D

/-- The bytes of one string character as written. -/
def RawChar.text (c : RawChar) : List Char :=
  match c.escape with
  | none => [c.char]
  | some seq => Char.ofNat 0x5C :: seq.data

/-- The bytes of a string literal, quotes included. -/
def stringText (s : List RawChar) : List Char :=
  Char.ofNat 0x22 :: ((s.map RawChar.text).flatten ++ [Char.ofNat 0x22])

/-- The bytes of an atom. -/
def Atom.text : Atom → List Char
  | .null => "null".data
  | .bool true => "true".data
  | .bool false => "false".data
  | .num n => (toString n).data
  | .real lit => lit.data

mutual
/-- The bytes of a JSON text. -/
def RawJSON.text : RawJSON → List Char
  | .atom a => a.text
  | .str s => stringText s
  | .arr pad items => Char.ofNat 0x5B :: (pad.map Ws.char ++ (RawJSON.textItems items ++ [Char.ofNat 0x5D]))
  | .obj pad members => Char.ofNat 0x7B :: (pad.map Ws.char ++ (RawJSON.textMembers members ++ [Char.ofNat 0x7D]))
  | .ws before v after => before.map Ws.char ++ (v.text ++ after.map Ws.char)
/-- The bytes of the elements of an array, separated by commas. -/
def RawJSON.textItems : List RawJSON → List Char
  | [] => []
  | [x] => x.text
  | x :: y :: rest => x.text ++ (Char.ofNat 0x2C :: RawJSON.textItems (y :: rest))
/-- The bytes of the members of an object, separated by commas. -/
def RawJSON.textMembers : List (RawKey × RawJSON) → List Char
  | [] => []
  | [(k, x)] =>
    k.before.map Ws.char ++ (stringText k.name ++ (k.after.map Ws.char ++ (Char.ofNat 0x3A :: x.text)))
  | (k, x) :: m :: rest =>
    k.before.map Ws.char ++ (stringText k.name ++ (k.after.map Ws.char ++ (Char.ofNat 0x3A :: (x.text
      ++ (Char.ofNat 0x2C :: RawJSON.textMembers (m :: rest))))))
end

/-- The string a string literal denotes. -/
def stringValue (s : List RawChar) : String := String.mk (s.map fun c => c.char)

mutual
/-- The JSON value a JSON text denotes: layout and spelling forgotten. -/
def RawJSON.value : RawJSON → JSON
  | .atom .null => .null
  | .atom (.bool b) => .bool b
  | .atom (.num n) => .num n
  | .atom (.real lit) => .real lit
  | .str s => .str (stringValue s)
  | .arr _ items => .arr (RawJSON.valueItems items)
  | .obj _ members => .obj (RawJSON.valueMembers members)
  | .ws _ v _ => v.value
/-- The values of the elements of an array. -/
def RawJSON.valueItems : List RawJSON → List JSON
  | [] => []
  | x :: rest => x.value :: RawJSON.valueItems rest
/-- The members of an object as values. -/
def RawJSON.valueMembers : List (RawKey × RawJSON) → List (String × JSON)
  | [] => []
  | (k, x) :: rest => (stringValue k.name, x.value) :: RawJSON.valueMembers rest
end

/-- What `encoding/json`'s `appendCompact` with `escapeHTML` does to one
string character: a literal `<`, `>`, `&`, U+2028 or U+2029 becomes a
`\u` escape; everything else, escapes included, is copied. -/
def escapeHTML (c : RawChar) : RawChar :=
  match c.escape with
  | some _ => c
  | none =>
    if c.char = Char.ofNat 0x3C then { c with escape := some "u003c" }
    else if c.char = Char.ofNat 0x3E then { c with escape := some "u003e" }
    else if c.char = Char.ofNat 0x26 then { c with escape := some "u0026" }
    else if c.char = Char.ofNat 0x2028 then { c with escape := some "u2028" }
    else if c.char = Char.ofNat 0x2029 then { c with escape := some "u2029" }
    else c

mutual
/-- What `json.Marshal` writes for a `json.RawMessage`: the text compacted
(`appendCompact` with `escapeHTML`), that is without any insignificant
whitespace and with the HTML characters of its strings escaped. -/
def RawJSON.compact : RawJSON → RawJSON
  | .atom a => .atom a
  | .str s => .str (s.map escapeHTML)
  | .arr _ items => .arr [] (RawJSON.compactItems items)
  | .obj _ members => .obj [] (RawJSON.compactMembers members)
  | .ws _ v _ => v.compact
/-- Compaction of the elements of an array. -/
def RawJSON.compactItems : List RawJSON → List RawJSON
  | [] => []
  | x :: rest => x.compact :: RawJSON.compactItems rest
/-- Compaction of the members of an object. -/
def RawJSON.compactMembers : List (RawKey × RawJSON) → List (RawKey × RawJSON)
  | [] => []
  | (k, x) :: rest =>
    ({ before := [], name := k.name.map escapeHTML, after := [] }, x.compact)
      :: RawJSON.compactMembers rest
end

/-- The value text the decoder hands to a field: the member's value without
the whitespace around it. -/
def RawJSON.trim : RawJSON → RawJSON
  | .ws _ v _ => v.trim
  | v => v

/-- One unit of a Go `string`, which is a sequence of bytes: a character in
its UTF-8 encoding, or a byte that is not part of a valid encoding. -/
inductive GoRune where
  | valid (c : Char) : GoRune
  | invalid (byte : Nat) : GoRune
  deriving DecidableEq, Repr

/-- A Go `string`. -/
abbrev GoString := List GoRune

/-- The Go string with the UTF-8 bytes of `s`. -/
def GoString.ofString (s : String) : GoString := s.data.map GoRune.valid

/-- The character `utf8.DecodeRuneInString` yields: `utf8.RuneError`, U+FFFD,
for an invalid byte. -/
def GoRune.toValid : GoRune → Char
  | .valid c => c
  | .invalid _ => Char.ofNat 0xFFFD

/-- The string with every invalid byte replaced by U+FFFD. -/
def GoString.toValidUTF8 (s : GoString) : GoString := s.map fun r => GoRune.valid r.toValid

/-- A hexadecimal digit, lower case. -/
def hexDigit (n : Nat) : Char := if n < 10 then Char.ofNat (48 + n) else Char.ofNat (87 + n)

/-- How `encoding/json`'s `appendString` with `escapeHTML` writes one unit of
a Go string.  Older Go releases write backspace and form feed as `\u0008`
and `\u000c`; the decoder reads the same character back either way. -/
def encodeRune : GoRune → RawChar
  | .invalid _ => { char := Char.ofNat 0xFFFD, escape := some "ufffd" }
  | .valid c =>
    if c = Char.ofNat 0x5C ∨ c = Char.ofNat 0x22 then { char := c, escape := some (String.singleton c) }
    else if c = Char.ofNat 0x08 then { char := c, escape := some "b" }
    else if c = Char.ofNat 0x0C then { char := c, escape := some "f" }
    else if c = Char.ofNat 0x0A then { char := c, escape := some "n" }
    else if c = Char.ofNat 0x0D then { char := c, escape := some "r" }
    else if c = Char.ofNat 0x09 then { char := c, escape := some "t" }
    else if c.toNat < 0x20 ∨ c = Char.ofNat 0x3C ∨ c = Char.ofNat 0x3E ∨ c = Char.ofNat 0x26 then
      { char := c, escape := some (String.mk [Char.ofNat 0x75, Char.ofNat 0x30, Char.ofNat 0x30,
          hexDigit (c.toNat / 16), hexDigit (c.toNat % 16)]) }
    else if c = Char.ofNat 0x2028 then { char := c, escape := some "u2028" }
    else if c = Char.ofNat 0x2029 then { char := c, escape := some "u2029" }
    else { char := c, escape := none }

/-- The string literal `json.Marshal` writes for a Go string. -/
def encodeString (s : GoString) : List RawChar := s.map encodeRune

/-- The key `json.Marshal` writes for a field name. -/
def encodeKey (name : String) : RawKey :=
  { before := [], name := encodeString (GoString.ofString name), after := [] }

/-- Storing into a `string`, as `decodeString`, with the Go string as result. -/
def decodeGoString (field : String) (v : JSON) (cur : GoString) : Except JsonError GoString :=
  match v with
  | .null => .ok cur
  | .str s => .ok (GoString.ofString s)
  | _ => .error (.typeError field)

/-- Storing into a `*string`, as `decodeStringPtr`, with the Go string as result. -/
def decodeGoStringPtr (field : String) (v : JSON) : Except JsonError (Option GoString) :=
  match v with
  | .null => .ok none
  | .str s => .ok (some (GoString.ofString s))
  | _ => .error (.typeError field)

/-- The struct `DiscordGatewayPayload` as Go holds it, byte for byte: `Data`
is the content of the `json.RawMessage` (`none` when it is empty, else a
valid JSON text), `Event` and `Message` are Go strings, `Seq` and `Event` are
pointers (`none` is nil). -/
structure DiscordGatewayPayloadBytes where
  Op : Int
  Data : Option RawJSON
  Seq : Option Int
  Event : Option GoString
  ErrCode : Int
  Message : GoString
  deriving DecidableEq

/-- The zero value of the struct. -/
def DiscordGatewayPayloadBytes.zero : DiscordGatewayPayloadBytes :=
  { Op := 0, Data := none, Seq := none, Event := none, ErrCode := 0, Message := [] }

/-- Every `int` field holds a Go `int`. -/
def DiscordGatewayPayloadBytes.wf (p : DiscordGatewayPayloadBytes) : Prop :=
  inInt64 p.Op ∧ (∀ s, p.Seq = some s → inInt64 s) ∧ inInt64 p.ErrCode

/-- The payload as the read loop uses it: the value of `Data` and the
characters of the strings. -/
def DiscordGatewayPayloadBytes.view (p : DiscordGatewayPayloadBytes) : DiscordGatewayPayload :=
  { Op := p.Op, Data := p.Data.map RawJSON.value, Seq := p.Seq,
    Event := p.Event.map fun e => String.mk (e.map GoRune.toValid),
    ErrCode := p.ErrCode, Message := String.mk (p.Message.map GoRune.toValid) }

/-- What decoding the encoding of a payload gives back: `Data` compacted,
the strings with their invalid bytes replaced by U+FFFD. -/
def DiscordGatewayPayloadBytes.normalize (p : DiscordGatewayPayloadBytes) : DiscordGatewayPayloadBytes :=
  { p with Data := p.Data.map RawJSON.compact, Event := p.Event.map GoString.toValidUTF8,
           Message := p.Message.toValidUTF8 }

/-- The call `json.Marshal(payload)` on a `DiscordGatewayPayload`, as the text
it writes: `op` always, the `omitempty` fields only when not empty; the
RawMessage is written compacted, the strings through the string encoder. -/
def marshalPayloadBytes (p : DiscordGatewayPayloadBytes) : RawJSON :=
  .obj [] ([(encodeKey "op", RawJSON.atom (.num p.Op))]
    ++ (match p.Data with | none => [] | some v => [(encodeKey "d", v.compact)])
    ++ (match p.Seq with | none => [] | some n => [(encodeKey "s", RawJSON.atom (.num n))])
    ++ (match p.Event with | none => [] | some e => [(encodeKey "t", RawJSON.str (encodeString e))])
    ++ (if p.ErrCode = 0 then [] else [(encodeKey "code", RawJSON.atom (.num p.ErrCode))])
    ++ (if p.Message = [] then [] else [(encodeKey "message", RawJSON.str (encodeString p.Message))]))

/-- Field store for the struct on JSON text: the typed fields are stored from
the value of the member, the `json.RawMessage` receives the bytes of the
member's value as they stand in the text. -/
def DiscordGatewayPayloadBytes.set (p : DiscordGatewayPayloadBytes) (f : PayloadField) (v : RawJSON) :
    Except JsonError DiscordGatewayPayloadBytes :=
  match f with
  | .op =>
    match decodeInt "op" v.value p.Op with
    | .error e => .error e
    | .ok n => .ok { p with Op := n }
  | .d => .ok { p with Data := some v.trim }
  | .s =>
    match decodeIntPtr "s" v.value with
    | .error e => .error e
    | .ok n => .ok { p with Seq := n }
  | .t =>
    match decodeGoStringPtr "t" v.value with
    | .error e => .error e
    | .ok n => .ok { p with Event := n }
  | .code =>
    match decodeInt "code" v.value p.ErrCode with
    | .error e => .error e
    | .ok n => .ok { p with ErrCode := n }
  | .message =>
    match decodeGoString "message" v.value p.Message with
    | .error e => .error e
    | .ok n => .ok { p with Message := n }

/-- Decoding the members of an object text into a struct, as `decodeFields`
does on values. -/
def decodeFieldsBytes {F S : Type} (fields : List (String × F))
    (set : S → F → RawJSON → Except JsonError S) :
    List (RawKey × RawJSON) → S → Except JsonError S
  | [], s => .ok s
  | (k, v) :: rest, s =>
    match matchField fields (stringValue k.name) with
    | none => decodeFieldsBytes fields set rest s
    | some f =>
      match set s f v with
      | .error e => .error e
      | .ok s' => decodeFieldsBytes fields set rest s'

/-- The call `json.Unmarshal(text, &payload)` on a fresh `DiscordGatewayPayload`. -/
def unmarshalPayloadBytes (text : RawJSON) : Except JsonError DiscordGatewayPayloadBytes :=
  match text.trim with
  | .atom .null => .ok .zero
  | .obj _ members =>
    decodeFieldsBytes payloadFields DiscordGatewayPayloadBytes.set members .zero
  | _ => .error (.typeError "DiscordGatewayPayload")

/-- The RawMessage `{ "a" : 1 }`, with spaces. -/
def spacedData : RawJSON :=
  .obj [.space] [({ before := [], name := [{ char := 'a', escape := none }], after := [.space] },
                  .ws [.space] (.atom (.num 1)) [.space])]

/-- A payload whose RawMessage is `{ "a" : 1 }`, with `Seq` pointing to 0 and
`Event` to the empty string. -/
def spacedPayload : DiscordGatewayPayloadBytes :=
  { Op := 0, Data := some spacedData, Seq := some 0, Event := some [], ErrCode := 0, Message := [] }

/-- The RawMessage `"<&>"`. -/
def htmlData : RawJSON :=
  .str [{ char := Char.ofNat 0x3C, escape := none }, { char := Char.ofNat 0x26, escape := none },
        { char := Char.ofNat 0x3E, escape := none }]

/-- A payload whose RawMessage is `"<&>"`. -/
def htmlPayload : DiscordGatewayPayloadBytes :=
  { Op := 0, Data := some htmlData, Seq := none, Event := none, ErrCode := 0, Message := [] }

/-- A dispatch envelope `{"op":0,"d":{},"s":7,"t":"MESSAGE_CREATE"}`. -/
def dispatchMessage : JSON :=
  .obj [("op", .num 0), ("d", .obj []), ("s", .num 7), ("t", .str "MESSAGE_CREATE")]

/-- A payload whose `Event` is the Go string of the two bytes `a` and 0xFF,
the second not valid UTF-8. -/
def invalidEventPayload : DiscordGatewayPayloadBytes :=
  { Op := 0, Data := none, Seq := none, Event := some [.valid 'a', .invalid 0xFF], ErrCode := 0,
    Message := [] }

/-- A payload whose RawMessage is the compact text `{"a":1}`, with `Seq`
pointing to 0 and `Event` to the empty string. -/
def compactPayload : DiscordGatewayPayloadBytes :=
  { Op := 0, Data := some spacedData.compact, Seq := some 0, Event := some [], ErrCode := 0,
    Message := [] }

/-! ## Theorems: the codec and the sequential functions -/

/-- A key that is neither `url` nor a case variant of it is skipped by the
decoder of `getGatewayURL`; the members `url` with a string value store it. -/
theorem decodeGatewayResult_member (pre post : List (String × JSON)) (u : String) (r : GatewayResult)
    (hpre : ∀ kv ∈ pre, matchField [("url", ())] kv.1 = none)
    (hpost : ∀ kv ∈ post, matchField [("url", ())] kv.1 = none) :
    decodeFields [("url", ())] GatewayResult.set (pre ++ ("url", JSON.str u) :: post) r
      = .ok { URL := u } := by
  have skip : ∀ (l : List (String × JSON)) (r : GatewayResult),
      (∀ kv ∈ l, matchField [("url", ())] kv.1 = none) →
      decodeFields [("url", ())] GatewayResult.set l r = .ok r := by
    intro l
    induction l with
    | nil => intro r _; rfl
    | cons kv rest ih =>
      intro r h
      obtain ⟨k, v⟩ := kv
      have hk : matchField [("url", ())] k = none := h (k, v) (List.mem_cons_self _ _)
      simp only [decodeFields, hk]
      exact ih r (fun kv hkv => h kv (List.mem_cons_of_mem _ hkv))
  induction pre generalizing r with
  | nil =>
    have hm : matchField [("url", ())] "url" = some () := by decide
    simp only [List.nil_append, decodeFields, hm, GatewayResult.set, decodeString]
    exact skip post _ hpost
  | cons kv rest ih =>
    obtain ⟨k, v⟩ := kv
    have hk : matchField [("url", ())] k = none := hpre (k, v) (List.mem_cons_self _ _)
    simp only [List.cons_append, decodeFields, hk]
    exact ih r (fun kv hkv => hpre kv (List.mem_cons_of_mem _ hkv))

/-- C1: when the discovery response body is a JSON object with a member
`url` whose value is the string `u` (and no other member whose key is `url`
or a case variant of it), and more generally whenever the object decodes into
the result struct with `URL = u`, `getGatewayURL` returns `u` followed by
`?encoding=json&v=9` and no error. -/
theorem getGatewayURL_appends_query (kvs : List (String × JSON)) (u : String) :
    (∀ pre post, kvs = pre ++ ("url", JSON.str u) :: post →
      (∀ kv ∈ pre, matchField [("url", ())] kv.1 = none) →
      (∀ kv ∈ post, matchField [("url", ())] kv.1 = none) →
      getGatewayURL (.ok (some (.obj kvs))) = .ok (u ++ "?encoding=json&v=9")) ∧
    (decodeGatewayResult (some (.obj kvs)) { URL := "" } = .ok { URL := u } →
      getGatewayURL (.ok (some (.obj kvs))) = .ok (u ++ "?encoding=json&v=9")) := by
  constructor
  · intro pre post hk hpre hpost
    subst hk
    have h := decodeGatewayResult_member pre post u { URL := "" } hpre hpost
    simp only [getGatewayURL, decodeGatewayResult, decodeStruct, h]
  · intro h
    simp only [getGatewayURL, h]

/-- Witness of C1, Scenario A with one more member: the body
`{"url":"wss://gateway.example","shards":1}` gives
`wss://gateway.example?encoding=json&v=9`. -/
theorem getGatewayURL_appends_query_witness :
    getGatewayURL (.ok (some (.obj [("url", .str "wss://gateway.example"), ("shards", .num 1)])))
      = .ok "wss://gateway.example?encoding=json&v=9" :=
  (getGatewayURL_appends_query [("url", .str "wss://gateway.example"), ("shards", .num 1)]
    "wss://gateway.example").1 [] [("shards", .num 1)] rfl
    (fun _ h => absurd h (List.not_mem_nil _)) (by decide)

/-- On JSON values, where layout and spelling are forgotten: encoding a
payload with its struct tags and decoding the result into a fresh payload
gives back the payload. -/
theorem payload_value_roundtrip (p : DiscordGatewayPayload) (h : p.wf) :
    unmarshalPayload (marshalPayload p) = .ok p := by
  obtain ⟨op, data, seq, event, code, message⟩ := p
  obtain ⟨hop, hseq, hcode⟩ := h
  simp only at hop hseq hcode
  have m1 : matchField payloadFields "op" = some .op := by decide
  have m2 : matchField payloadFields "d" = some .d := by decide
  have m3 : matchField payloadFields "s" = some .s := by decide
  have m4 : matchField payloadFields "t" = some .t := by decide
  have m5 : matchField payloadFields "code" = some .code := by decide
  have m6 : matchField payloadFields "message" = some .message := by decide
  cases data <;> cases seq <;> cases event <;> by_cases hc : code = 0 <;>
    by_cases hm : message = "" <;>
    simp [unmarshalPayload, marshalPayload, decodeStruct, decodeFields, m1, m2, m3, m4, m5, m6,
      DiscordGatewayPayload.set, DiscordGatewayPayload.zero, decodeInt, decodeIntPtr,
      decodeStringPtr, decodeString, hop, hseq, hcode, hc, hm]

/-- C6: with `sendMutex` free, `sendGatewayMessage(conn, op, data)` hands to
`conn.WriteJSON` exactly one envelope, with `op` and with `d` the encoding of
`data`, returns what the write returned and leaves `sendMutex` unlocked; when
`json.Marshal(data)` fails it returns that error and the connection is
untouched. -/
theorem sendGatewayMessage_writes_one_envelope {α : Type} (marshal : α → Except JsonError JSON)
    (op : Int) (data : α) (s : SendState) (h : s.sendMutex = false) :
    (∀ payload, marshal data = .ok payload →
      sendGatewayMessage marshal op data s
        = some ({ sendMutex := false,
                  conn := { sent := s.conn.sent ++ [.obj [("op", .num op), ("d", payload)]],
                            failing := s.conn.failing } },
                s.conn.failing)) ∧
    (∀ e, marshal data = .error e →
      sendGatewayMessage marshal op data s = some (s, some (.json e))) := by
  obtain ⟨m, conn⟩ := s
  simp only at h
  subst h
  constructor
  · intro payload hp
    simp [sendGatewayMessage, hp, Conn.WriteJSON, gatewayMessage]
  · intro e he
    simp [sendGatewayMessage, he]

/-- Witness of C6: sending the Identify payload on a healthy, empty connection. -/
theorem sendGatewayMessage_writes_one_envelope_witness :
    sendGatewayMessage jsonMarshalIdentity 2 (identityOf sampleToken)
        { sendMutex := false, conn := { sent := [], failing := none } }
      = some ({ sendMutex := false,
                conn := { sent := [.obj [("op", .num 2), ("d", marshalIdentity (identityOf sampleToken))]],
                          failing := none } },
              none) :=
  (sendGatewayMessage_writes_one_envelope jsonMarshalIdentity 2 (identityOf sampleToken)
    { sendMutex := false, conn := { sent := [], failing := none } } rfl).1 _ rfl

/-! ## Theorems: the payload byte for byte -/

/-- The character written for a unit of a Go string is the one the decoder
reads back: the unit itself, or U+FFFD for an invalid byte. -/
theorem encodeRune_char (r : GoRune) : (encodeRune r).char = r.toValid := by
  cases r with
  | invalid b => rfl
  | valid c =>
    simp only [encodeRune, GoRune.toValid]
    repeat' split
    all_goals rfl

/-- The string denoted by the literal written for a Go string. -/
theorem stringValue_encodeString (s : GoString) :
    stringValue (encodeString s) = String.mk (s.map GoRune.toValid) := by
  simp only [stringValue, encodeString, List.map_map]
  congr 1
  apply List.map_congr_left
  intro r _
  exact encodeRune_char r

/-- Reading back the literal written for a Go string gives the string with
its invalid bytes replaced. -/
theorem ofString_stringValue_encodeString (s : GoString) :
    GoString.ofString (stringValue (encodeString s)) = s.toValidUTF8 := by
  rw [stringValue_encodeString]
  simp [GoString.ofString, GoString.toValidUTF8]

/-- A compacted text has no whitespace around it. -/
theorem trim_compact : ∀ r : RawJSON, r.compact.trim = r.compact
  | .atom _ => rfl
  | .str _ => rfl
  | .arr _ _ => rfl
  | .obj _ _ => rfl
  | .ws _ v _ => by
    simp only [RawJSON.compact]
    exact trim_compact v

/-- Escaping changes the spelling of a character, not the character. -/
theorem escapeHTML_char (c : RawChar) : (escapeHTML c).char = c.char := by
  simp only [escapeHTML]
  repeat' split
  all_goals rfl

/-- Escaping does not change the string a literal denotes. -/
theorem stringValue_map_escapeHTML (s : List RawChar) :
    stringValue (s.map escapeHTML) = stringValue s := by
  simp only [stringValue, List.map_map]
  congr 1
  apply List.map_congr_left
  intro c _
  exact escapeHTML_char c

mutual
/-- Compaction does not change the JSON value a text denotes. -/
theorem value_compact : ∀ r : RawJSON, r.compact.value = r.value
  | .atom .null => rfl
  | .atom (.bool _) => rfl
  | .atom (.num _) => rfl
  | .atom (.real _) => rfl
  | .str s => by
    simp only [RawJSON.compact, RawJSON.value, stringValue_map_escapeHTML]
  | .arr _ items => by
    simp only [RawJSON.compact, RawJSON.value]
    rw [valueItems_compactItems items]
  | .obj _ members => by
    simp only [RawJSON.compact, RawJSON.value]
    rw [valueMembers_compactMembers members]
  | .ws _ v _ => by
    simp only [RawJSON.compact, RawJSON.value]
    exact value_compact v
/-- Compaction does not change the values of the elements of an array. -/
theorem valueItems_compactItems : ∀ items : List RawJSON,
    RawJSON.valueItems (RawJSON.compactItems items) = RawJSON.valueItems items
  | [] => rfl
  | x :: rest => by
    simp only [RawJSON.compactItems, RawJSON.valueItems]
    rw [value_compact x, valueItems_compactItems rest]
/-- Compaction does not change the members of an object as values. -/
theorem valueMembers_compactMembers : ∀ members : List (RawKey × RawJSON),
    RawJSON.valueMembers (RawJSON.compactMembers members) = RawJSON.valueMembers members
  | [] => rfl
  | (k, x) :: rest => by
    simp only [RawJSON.compactMembers, RawJSON.valueMembers]
    rw [value_compact x, valueMembers_compactMembers rest, stringValue_map_escapeHTML]
end

/-- Decoding the text `json.Marshal` writes for a payload gives the payload
with `Data` compacted and the invalid bytes of its strings replaced. -/
theorem unmarshal_marshal_bytes (p : DiscordGatewayPayloadBytes) (h : p.wf) :
    unmarshalPayloadBytes (marshalPayloadBytes p) = .ok p.normalize := by
  obtain ⟨op, data, seq, event, code, message⟩ := p
  obtain ⟨hop, hseq, hcode⟩ := h
  simp only at hop hseq hcode
  have m1 : matchField payloadFields (stringValue (encodeKey "op").name) = some .op := by decide
  have m2 : matchField payloadFields (stringValue (encodeKey "d").name) = some .d := by decide
  have m3 : matchField payloadFields (stringValue (encodeKey "s").name) = some .s := by decide
  have m4 : matchField payloadFields (stringValue (encodeKey "t").name) = some .t := by decide
  have m5 : matchField payloadFields (stringValue (encodeKey "code").name) = some .code := by decide
  have m6 : matchField payloadFields (stringValue (encodeKey "message").name) = some .message := by
    decide
  have hnil : ∀ s : GoString, s = [] → s.toValidUTF8 = [] := by
    intro s hs; subst hs; rfl
  cases data <;> cases seq <;> cases event <;> by_cases hc : code = 0 <;>
    by_cases hm : message = [] <;>
    simp [unmarshalPayloadBytes, marshalPayloadBytes, RawJSON.trim, decodeFieldsBytes,
      m1, m2, m3, m4, m5, m6, DiscordGatewayPayloadBytes.set, DiscordGatewayPayloadBytes.zero,
      DiscordGatewayPayloadBytes.normalize, RawJSON.value, decodeInt, decodeIntPtr,
      decodeGoStringPtr, decodeGoString, ofString_stringValue_encodeString, trim_compact,
      hop, hseq, hcode, hc, hm, hnil]

/-- Trimming does not change the JSON value a text denotes. -/
theorem value_trim : ∀ r : RawJSON, r.trim.value = r.value
  | .atom _ => rfl
  | .str _ => rfl
  | .arr _ _ => rfl
  | .obj _ _ => rfl
  | .ws _ v _ => by
    simp only [RawJSON.trim, RawJSON.value]
    exact value_trim v

/-- A string turned into a Go string and read back is the string. -/
theorem string_ofString (s : String) : String.mk ((GoString.ofString s).map GoRune.toValid) = s := by
  cases s with
  | mk cs =>
    simp only [GoString.ofString, List.map_map]
    congr 1
    exact List.map_id cs

/-- The field store on values is the view of the field store on bytes. -/
theorem set_view (p : DiscordGatewayPayloadBytes) (f : PayloadField) (v : RawJSON) :
    (DiscordGatewayPayloadBytes.set p f v).map DiscordGatewayPayloadBytes.view
      = DiscordGatewayPayload.set p.view f v.value := by
  cases f with
  | op =>
    cases hv : v.value with
    | num n =>
      by_cases hn : inInt64 n <;>
        simp [DiscordGatewayPayloadBytes.set, DiscordGatewayPayload.set, decodeInt, hv, hn,
          DiscordGatewayPayloadBytes.view, Except.map]
    | _ =>
      simp [DiscordGatewayPayloadBytes.set, DiscordGatewayPayload.set, decodeInt, hv,
        DiscordGatewayPayloadBytes.view, Except.map]
  | d =>
    simp [DiscordGatewayPayloadBytes.set, DiscordGatewayPayload.set,
      DiscordGatewayPayloadBytes.view, Except.map, value_trim]
  | s =>
    cases hv : v.value with
    | num n =>
      by_cases hn : inInt64 n <;>
        simp [DiscordGatewayPayloadBytes.set, DiscordGatewayPayload.set, decodeIntPtr, hv, hn,
          DiscordGatewayPayloadBytes.view, Except.map]
    | _ =>
      simp [DiscordGatewayPayloadBytes.set, DiscordGatewayPayload.set, decodeIntPtr, hv,
        DiscordGatewayPayloadBytes.view, Except.map]
  | t =>
    cases hv : v.value <;>
      simp [DiscordGatewayPayloadBytes.set, DiscordGatewayPayload.set, decodeGoStringPtr,
        decodeStringPtr, hv, DiscordGatewayPayloadBytes.view, Except.map, string_ofString]
  | code =>
    cases hv : v.value with
    | num n =>
      by_cases hn : inInt64 n <;>
        simp [DiscordGatewayPayloadBytes.set, DiscordGatewayPayload.set, decodeInt, hv, hn,
          DiscordGatewayPayloadBytes.view, Except.map]
    | _ =>
      simp [DiscordGatewayPayloadBytes.set, DiscordGatewayPayload.set, decodeInt, hv,
        DiscordGatewayPayloadBytes.view, Except.map]
  | message =>
    cases hv : v.value <;>
      simp [DiscordGatewayPayloadBytes.set, DiscordGatewayPayload.set, decodeGoString,
        decodeString, hv, DiscordGatewayPayloadBytes.view, Except.map, string_ofString]

/-- Decoding the members on values is the view of decoding them on bytes. -/
theorem decodeFieldsBytes_view (members : List (RawKey × RawJSON)) (p : DiscordGatewayPayloadBytes) :
    (decodeFieldsBytes payloadFields DiscordGatewayPayloadBytes.set members p).map
        DiscordGatewayPayloadBytes.view
      = decodeFields payloadFields DiscordGatewayPayload.set (RawJSON.valueMembers members) p.view := by
  induction members generalizing p with
  | nil => rfl
  | cons kv rest ih =>
    obtain ⟨k, v⟩ := kv
    simp only [decodeFieldsBytes, RawJSON.valueMembers, decodeFields]
    cases hm : matchField payloadFields (stringValue k.name) with
    | none => exact ih p
    | some f =>
      simp only
      have hs := set_view p f v
      cases hset : DiscordGatewayPayloadBytes.set p f v with
      | error e =>
        rw [hset] at hs
        simp only [Except.map] at hs
        simp only [← hs]
        rfl
      | ok q =>
        rw [hset] at hs
        simp only [Except.map] at hs
        simp only [← hs]
        exact ih q

/-- The decoder on JSON values that the read loop uses is the view of the
decoder on the bytes of the message. -/
theorem unmarshalPayloadBytes_view : ∀ text : RawJSON,
    (unmarshalPayloadBytes text).map DiscordGatewayPayloadBytes.view = unmarshalPayload text.value
  | .atom .null => rfl
  | .atom (.bool _) => rfl
  | .atom (.num _) => rfl
  | .atom (.real _) => rfl
  | .str _ => rfl
  | .arr _ _ => rfl
  | .obj _ members => by
    simp only [unmarshalPayloadBytes, RawJSON.trim, unmarshalPayload, RawJSON.value, decodeStruct]
    exact decodeFieldsBytes_view members .zero
  | .ws b v a => by
    have h : unmarshalPayloadBytes (.ws b v a) = unmarshalPayloadBytes v := by
      simp only [unmarshalPayloadBytes, RawJSON.trim]
    rw [h]
    simp only [RawJSON.value]
    exact unmarshalPayloadBytes_view v

/-- The encoder on JSON values is the value of the text the encoder writes. -/
theorem marshalPayloadBytes_value (p : DiscordGatewayPayloadBytes) :
    (marshalPayloadBytes p).value = marshalPayload p.view := by
  obtain ⟨op, data, seq, event, code, message⟩ := p
  have k1 : stringValue (encodeKey "op").name = "op" := by decide
  have k2 : stringValue (encodeKey "d").name = "d" := by decide
  have k3 : stringValue (encodeKey "s").name = "s" := by decide
  have k4 : stringValue (encodeKey "t").name = "t" := by decide
  have k5 : stringValue (encodeKey "code").name = "code" := by decide
  have k6 : stringValue (encodeKey "message").name = "message" := by decide
  have hmsg : (String.mk (message.map GoRune.toValid) = "") ↔ message = [] := by
    constructor
    · intro h
      have h2 : (String.mk (message.map GoRune.toValid)).data = [] := by rw [h]
      simpa using h2
    · intro h; subst h; rfl
  cases data <;> cases seq <;> cases event <;> by_cases hc : code = 0 <;>
    by_cases hm : message = [] <;>
    simp [marshalPayloadBytes, marshalPayload, RawJSON.value, RawJSON.valueMembers,
      DiscordGatewayPayloadBytes.view, k1, k2, k3, k4, k5, k6, value_compact,
      stringValue_encodeString, hc, hm, hmsg]

/-- C5, refuted as stated: the payload whose `Data` is the RawMessage
`{ "a" : 1 }` is encoded and decoded back with `Data` equal to `{"a":1}`,
which is not the original `Data`; likewise the RawMessage `"<&>"` comes
back with its three characters written as `\u003c`, `\u0026`, `\u003e`,
and an `Event` holding the invalid byte 0xFF comes back with U+FFFD in its
place. -/
theorem payload_roundtrip_counterexample :
    String.mk spacedData.text = "\x7b \"a\" : 1 \x7d" ∧
    (unmarshalPayloadBytes (marshalPayloadBytes spacedPayload)).map
        (fun q => (q.Op, q.Data.map (fun d => String.mk d.text), q.Seq))
      = .ok (0, some "\x7b\"a\":1\x7d", some 0) ∧
    (unmarshalPayloadBytes (marshalPayloadBytes spacedPayload)).map
        (fun q => decide (q.Data = spacedPayload.Data)) = .ok false ∧
    String.mk htmlData.text = "\"<&>\"" ∧
    (unmarshalPayloadBytes (marshalPayloadBytes htmlPayload)).map
        (fun q => q.Data.map (fun d => String.mk d.text))
      = .ok (some "\"\\u003c\\u0026\\u003e\"") ∧
    (unmarshalPayloadBytes (marshalPayloadBytes htmlPayload)).map
        (fun q => decide (q.Data = htmlPayload.Data)) = .ok false ∧
    (unmarshalPayloadBytes (marshalPayloadBytes invalidEventPayload)).map (fun q => q.Event)
      = .ok (some [.valid 'a', .valid (Char.ofNat 0xFFFD)]) ∧
    (unmarshalPayloadBytes (marshalPayloadBytes invalidEventPayload)).map
        (fun q => decide (q.Event = invalidEventPayload.Event)) = .ok false := by
  decide

/-- C5, amended: for every `DiscordGatewayPayload` whose int fields are Go
ints, encoding it with the struct tags and decoding the result succeeds and
gives back `Op` and `Seq` unchanged, `Data` in its compacted form (the same
JSON value, without insignificant whitespace and with `<`, `>`, `&`, U+2028
and U+2029 escaped), and `Event` with every invalid UTF-8 byte replaced by
U+FFFD; so when `Data` is already compact and `Event` is valid UTF-8 the
result equals the original in `Op`, `Data`, `Seq` and `Event`. -/
theorem payload_roundtrip_up_to_compaction (p : DiscordGatewayPayloadBytes) (h : p.wf) :
    ∃ q, unmarshalPayloadBytes (marshalPayloadBytes p) = .ok q ∧
      q.Op = p.Op ∧ q.Seq = p.Seq ∧
      q.Data = p.Data.map RawJSON.compact ∧
      q.Data.map RawJSON.value = p.Data.map RawJSON.value ∧
      q.Event = p.Event.map GoString.toValidUTF8 ∧
      (p.Data.map RawJSON.compact = p.Data → p.Event.map GoString.toValidUTF8 = p.Event →
        q.Op = p.Op ∧ q.Data = p.Data ∧ q.Seq = p.Seq ∧ q.Event = p.Event) := by
  refine ⟨p.normalize, unmarshal_marshal_bytes p h, rfl, rfl, rfl, ?_, rfl, ?_⟩
  · cases hd : p.Data with
    | none => simp [DiscordGatewayPayloadBytes.normalize, hd]
    | some d => simp [DiscordGatewayPayloadBytes.normalize, hd, value_compact]
  · intro h1 h2
    exact ⟨rfl, h1, rfl, h2⟩

/-- Witness of the amended C5: a payload with the compact RawMessage
`{"a":1}`, `Seq` pointing to 0 and `Event` pointing to the empty string comes
back equal in `Op`, `Data`, `Seq` and `Event`. -/
theorem payload_roundtrip_up_to_compaction_witness :
    ∃ q, unmarshalPayloadBytes (marshalPayloadBytes compactPayload) = .ok q ∧
      q.Op = 0 ∧ q.Data = some spacedData.compact ∧ q.Seq = some 0 ∧ q.Event = some [] :=
  match payload_roundtrip_up_to_compaction compactPayload
      ⟨by decide, by intro s hs; cases hs; decide, by decide⟩ with
  | ⟨q, hq, _, _, _, _, _, himp⟩ => ⟨q, hq, himp (by decide) (by decide)⟩

/-! ## Theorems: the goroutines -/

/-- Running a list of actions whose first step is known. -/
theorem run_cons_of_step (w w' : World) (a : Action) (rest : List Action) (h : step w a = some w') :
    run w (a :: rest) = run w' rest := by
  simp only [run, h]

/-- Running a concatenation of action lists. -/
theorem run_append (w : World) (as bs : List Action) :
    run w (as ++ bs) = (run w as).bind fun w' => run w' bs := by
  induction as generalizing w with
  | nil => rfl
  | cons a rest ih =>
    simp only [List.cons_append, run]
    cases step w a with
    | none => rfl
    | some w' => exact ih w'

/-- The reconnect loop: after `n` failed dials and one successful dial the
new connection is installed and the read loop is back at `ReadJSON`. -/
theorem run_reconnect (n : Nat) (w : World) (hs : w.status = .running) (hr : w.reader = .dialing) :
    run w (List.replicate n (.dial false) ++ [.dial true])
      = some { w with wsConn := some w.nextConn, nextConn := w.nextConn + 1, reader := .reading,
                      trace := w.trace ++ (failedDials w.gatewayURL n
                        ++ [.dial w.gatewayURL (some w.nextConn)]) } := by
  induction n generalizing w with
  | zero =>
    simp [run, step, hs, hr, readerDial, failedDials]
  | succ n ih =>
    have h1 : step w (.dial false)
        = some { w with wsConn := none,
                        trace := w.trace ++ [.dial w.gatewayURL none, .sleep timeSecond] } := by
      simp [step, hs, hr, readerDial]
    rw [List.replicate_succ, List.cons_append, run_cons_of_step _ _ _ _ h1, ih]
    · simp [failedDials]
    · exact hs
    · exact hr

/-- Counting the dials among the events of `n` failed attempts. -/
theorem dialCount_failedDials (url : String) (n : Nat) (rest : List Event) :
    dialCount (failedDials url n ++ rest) = n + dialCount rest := by
  induction n with
  | zero => simp [failedDials]
  | succ n ih =>
    simp only [dialCount] at ih
    simp [failedDials, dialCount, List.countP_cons, ih]
    omega

/-- Counting the one-second sleeps among the events of `n` failed attempts. -/
theorem secondSleepCount_failedDials (url : String) (n : Nat) (rest : List Event) :
    secondSleepCount (failedDials url n ++ rest) = n + secondSleepCount rest := by
  induction n with
  | zero => simp [failedDials]
  | succ n ih =>
    simp only [secondSleepCount] at ih
    simp [failedDials, secondSleepCount, List.countP_cons, ih]
    omega

/-- C4: when `ReadJSON` fails on the current connection `c` and then `n` dial
attempts fail and the next one succeeds, the read loop goroutine performs
exactly `n + 1` dials and `n` one-second sleeps, installs the newly dialed
connection as `wsConn` and is back in `ReadJSON` on it; this holds for every
`n`. -/
theorem reconnect_loop_retries_until_success (w : World) (c : ConnId) (n : Nat)
    (hs : w.status = .running) (hr : w.reader = .reading) (hc : w.wsConn = some c) :
    ∃ w' events,
      run w (.read none :: (List.replicate n (.dial false) ++ [.dial true])) = some w' ∧
      w'.trace = w.trace ++ .readError c :: events ∧
      events = failedDials w.gatewayURL n ++ [.dial w.gatewayURL (some w.nextConn)] ∧
      dialCount events = n + 1 ∧ secondSleepCount events = n ∧
      w'.wsConn = some w.nextConn ∧ w'.reader = .reading ∧ w'.status = .running ∧
      ∀ msg, step w' (.read msg) = some (readerRead w' w.nextConn msg) := by
  have h1 : step w (.read none)
      = some { w with reader := .dialing, trace := w.trace ++ [.readError c] } := by
    simp [step, hs, hr, hc, readerRead, readJSON]
  have h2 := run_reconnect n { w with reader := .dialing, trace := w.trace ++ [.readError c] } hs rfl
  rw [← run_cons_of_step _ _ _ _ h1] at h2
  refine ⟨_, failedDials w.gatewayURL n ++ [.dial w.gatewayURL (some w.nextConn)],
    h2, ?_, rfl, ?_, ?_, ?_, ?_, ?_, ?_⟩
  · simp
  · rw [dialCount_failedDials]; simp [dialCount]
  · rw [secondSleepCount_failedDials]; simp [secondSleepCount]
  · rfl
  · rfl
  · exact hs
  · intro msg
    simp [step, hs]

/-- Witness of C4: two failed dials, then a successful one, after the first
connection broke. -/
theorem reconnect_loop_retries_until_success_witness :
    ∃ w' events,
      run (init sampleToken sampleURL)
        (.read none :: (List.replicate 2 (.dial false) ++ [.dial true])) = some w' ∧
      w'.trace = (init sampleToken sampleURL).trace ++ .readError 0 :: events ∧
      events = failedDials (init sampleToken sampleURL).gatewayURL 2
        ++ [.dial (init sampleToken sampleURL).gatewayURL (some (init sampleToken sampleURL).nextConn)] ∧
      dialCount events = 2 + 1 ∧ secondSleepCount events = 2 ∧
      w'.wsConn = some (init sampleToken sampleURL).nextConn ∧ w'.reader = .reading ∧
      w'.status = .running ∧
      ∀ msg, step w' (.read msg) = some (readerRead w' (init sampleToken sampleURL).nextConn msg) :=
  reconnect_loop_retries_until_success (init sampleToken sampleURL) 0 2 rfl rfl rfl

/-- C2, refuted as stated: main sends the Identify on connection 0 although
no Hello was read on it; then the connection breaks, connection 1 is dialed,
a Hello is read on connection 1, and no Identify is ever sent on connection 1
before the process exits. -/
theorem identify_iff_hello_counterexample :
    (run (init sampleToken sampleURL)
        [.mainLock, .mainWrite, .mainReturn false, .read none, .dial true,
         .read (some (helloMessage 41250)), .signal]).map
      (fun w => (w.status, identifySentOn 0 w.trace, helloReceivedOn 0 w.trace,
                 helloReceivedOn 1 w.trace, identifySentOn 1 w.trace))
      = some (.exited, true, false, true, false) := by
  decide

/-- C2, amended: from any running state in which main is about to call
`sendGatewayMessage(wsConn, 2, identity)` with `sendMutex` free and a current
connection `c`, main's three steps write exactly one envelope, the Identify
(op = 2 with the encoded identity), on `c`, holding `sendMutex`; nothing is
required of the events so far, in particular no Hello on `c`. -/
theorem identify_sent_by_main_unconditionally (w : World) (c : ConnId) (failed : Bool)
    (hs : w.status = .running) (hp : w.mainPc = .start) (hm : w.sendMutex = none)
    (hc : w.wsConn = some c) :
    ∃ w', run w [.mainLock, .mainWrite, .mainReturn failed] = some w' ∧
      w'.trace = w.trace ++
        [.writeBegin .main c
            (.obj [("op", .num 2), ("d", marshalIdentity (identityOf w.token))]) true,
         .writeEnd .main c failed] ∧
      identifySentOn c w'.trace = true ∧
      w'.mainPc = .waiting ∧ w'.sendMutex = none := by
  refine ⟨{ w with sendMutex := none, mainPc := .waiting,
                   trace := w.trace ++
                     [.writeBegin .main c
                        (.obj [("op", .num 2), ("d", marshalIdentity (identityOf w.token))]) true,
                      .writeEnd .main c failed] }, ?_, rfl, ?_, rfl, rfl⟩
  · simp [run, step, hs, hp, hm, hc, mainWrite, jsonMarshalIdentity, gatewayMessage]
  · simp [identifySentOn, envelopeOp, List.lookup]

/-- Witness of the amended C2: at the start, before anything was read. -/
theorem identify_sent_by_main_unconditionally_witness :
    ∃ w', run (init sampleToken sampleURL) [.mainLock, .mainWrite, .mainReturn false] = some w' ∧
      w'.trace = (init sampleToken sampleURL).trace ++
        [.writeBegin .main 0
            (.obj [("op", .num 2),
                   ("d", marshalIdentity (identityOf (init sampleToken sampleURL).token))]) true,
         .writeEnd .main 0 false] ∧
      identifySentOn 0 w'.trace = true ∧
      w'.mainPc = .waiting ∧ w'.sendMutex = none :=
  identify_sent_by_main_unconditionally (init sampleToken sampleURL) 0 false rfl rfl rfl rfl

/-- C3, refuted as stated: heartbeat loop 0 is started by the Hello read on
connection 0; the read fails, connection 1 is dialed; when loop 0 wakes it
writes its heartbeat envelope to connection 1. -/
theorem stale_heartbeat_counterexample :
    (run (init sampleToken sampleURL)
        [.read (some (helloMessage 41250)), .read none, .dial true, .hbWake 0]).map
      (fun w => (w.heartbeats.map (fun hb => hb.bornOn), w.wsConn, w.trace.getLast?))
      = some ([0], some 1,
          some (.writeBegin (.heartbeat 0) 1 (.obj [("op", .num 1), ("d", .num 42)]) false)) := by
  decide

/-- C3, amended: when a running heartbeat loop wakes from its sleep it writes
its heartbeat envelope to the connection that is current at that moment, the
value of the shared variable `wsConn`, on whichever connection `hb.bornOn`
its Hello was read. -/
theorem heartbeat_writes_to_current_connection (w : World) (i : Nat) (hb : Heartbeat) (c : ConnId)
    (hs : w.status = .running) (hi : w.heartbeats[i]? = some hb) (hp : hb.pc = .sleeping)
    (hc : w.wsConn = some c) :
    ∃ w', step w (.hbWake i) = some w' ∧
      w'.trace = w.trace ++
        [.sleep (wrapInt64 (hb.interval * timeMillisecond)),
         .writeBegin (.heartbeat i) c (.obj [("op", .num 1), ("d", .num 42)])
           (decide (w.sendMutex = some (.heartbeat i)))] ∧
      w'.heartbeats[i]? = some { hb with pc := .writing c } ∧
      w'.wsConn = some c := by
  refine ⟨heartbeatWake w i hb, ?_, ?_, ?_, ?_⟩
  · simp [step, hs, hi, hp]
  · simp [heartbeatWake, hc, marshalHeartbeat, heartbeatValue]
  · have hlt : i < w.heartbeats.length := by
      rcases Nat.lt_or_ge i w.heartbeats.length with h | h
      · exact h
      · rw [List.getElem?_eq_none h] at hi; cases hi
    simp [heartbeatWake, hc, List.getElem?_set, hlt]
  · simp [heartbeatWake, hc]

/-- The world `reconnectedWorld` is reached from the start. -/
theorem reconnectedWorld_reachable :
    run (init sampleToken sampleURL) [.read (some (helloMessage 41250)), .read none, .dial true]
      = some reconnectedWorld := by
  decide

/-- Witness of the amended C3: heartbeat loop 0 of `reconnectedWorld`, started
on connection 0, wakes while connection 1 is current. -/
theorem heartbeat_writes_to_current_connection_witness :
    ∃ w', step reconnectedWorld (.hbWake 0) = some w' ∧
      w'.trace = reconnectedWorld.trace ++
        [.sleep (wrapInt64 ((41250 : Int) * timeMillisecond)),
         .writeBegin (.heartbeat 0) 1 (.obj [("op", .num 1), ("d", .num 42)])
           (decide (reconnectedWorld.sendMutex = some (.heartbeat 0)))] ∧
      w'.heartbeats[0]? = some { interval := 41250, bornOn := 0, pc := .writing 1 } ∧
      w'.wsConn = some 1 :=
  heartbeat_writes_to_current_connection reconnectedWorld 0
    { interval := 41250, bornOn := 0, pc := .sleeping } 1 rfl rfl rfl rfl

/-- The heartbeat envelopes of a concatenation of traces. -/
theorem heartbeatEnvelopes_append (xs ys : List Event) :
    heartbeatEnvelopes (xs ++ ys) = heartbeatEnvelopes xs ++ heartbeatEnvelopes ys := by
  induction xs with
  | nil => rfl
  | cons e rest ih =>
    cases e with
    | writeBegin wr c msg held =>
      cases wr with
      | main => simpa [heartbeatEnvelopes] using ih
      | heartbeat i => simpa [heartbeatEnvelopes] using ih
    | _ => simpa [heartbeatEnvelopes] using ih

/-- One step adds no heartbeat envelope other than `{"op":1,"d":42}`. -/
theorem step_heartbeatEnvelopes (w w' : World) (a : Action) (h : step w a = some w')
    (msg : JSON) (hm : msg ∈ heartbeatEnvelopes w'.trace) :
    msg ∈ heartbeatEnvelopes w.trace ∨ msg = .obj [("op", .num 1), ("d", .num 42)] := by
  unfold step at h
  split at h
  · cases h
  · cases a with
    | mainLock =>
      simp only at h
      split at h
      · cases h; exact Or.inl hm
      · cases h
    | mainWrite =>
      simp only at h
      split at h
      · cases h
        rename_i conn _
        cases conn with
        | none => simp only [mainWrite, jsonMarshalIdentity] at hm; exact Or.inl hm
        | some c =>
          simp only [mainWrite, jsonMarshalIdentity, heartbeatEnvelopes_append] at hm
          simp [heartbeatEnvelopes, marshalHeartbeat, heartbeatValue] at hm
          exact Or.inl hm
      · cases h
    | mainReturn failed =>
      simp only at h
      split at h
      · cases h
        simp only [heartbeatEnvelopes_append] at hm
        simp [heartbeatEnvelopes, marshalHeartbeat, heartbeatValue] at hm
        exact Or.inl hm
      · cases h
    | signal =>
      simp only at h
      split at h
      · cases h; exact Or.inl hm
      · cases h
    | read m =>
      simp only at h
      split at h
      · cases h
        simp only [readerRead] at hm
        split at hm
        · simp only [heartbeatEnvelopes_append] at hm
          simp [heartbeatEnvelopes, marshalHeartbeat, heartbeatValue] at hm
          exact Or.inl hm
        · simp only [handlePayload] at hm
          split at hm
          · split at hm
            · simp only [heartbeatEnvelopes_append] at hm
              simp [heartbeatEnvelopes, marshalHeartbeat, heartbeatValue] at hm
              exact Or.inl hm
            · simp only [heartbeatEnvelopes_append] at hm
              simp [heartbeatEnvelopes, marshalHeartbeat, heartbeatValue] at hm
              exact Or.inl hm
          · simp only [heartbeatEnvelopes_append] at hm
            simp [heartbeatEnvelopes, marshalHeartbeat, heartbeatValue] at hm
            exact Or.inl hm
      · cases h
    | dial ok =>
      simp only at h
      split at h
      · cases h
        simp only [readerDial] at hm
        split at hm
        · simp only [heartbeatEnvelopes_append] at hm
          simp [heartbeatEnvelopes, marshalHeartbeat, heartbeatValue] at hm
          exact Or.inl hm
        · simp only [heartbeatEnvelopes_append] at hm
          simp [heartbeatEnvelopes, marshalHeartbeat, heartbeatValue] at hm
          exact Or.inl hm
      · cases h
    | hbWake i =>
      simp only at h
      split at h
      · split at h
        · cases h
          simp only [heartbeatWake] at hm
          split at hm
          · simp only [heartbeatEnvelopes_append] at hm
            simp [heartbeatEnvelopes, marshalHeartbeat, heartbeatValue] at hm
            exact Or.inl hm
          · simp only [heartbeatEnvelopes_append] at hm
            simp [heartbeatEnvelopes, marshalHeartbeat, heartbeatValue] at hm
            exact hm
        · cases h
      · cases h
    | hbReturn i failed =>
      simp only at h
      split at h
      · split at h
        · cases h
          simp only [heartbeatReturn, heartbeatEnvelopes_append] at hm
          simp [heartbeatEnvelopes, marshalHeartbeat, heartbeatValue] at hm
          exact Or.inl hm
        · cases h
      · cases h

/-- Along a run no heartbeat envelope other than `{"op":1,"d":42}` appears. -/
theorem run_heartbeatEnvelopes (acts : List Action) (w w' : World) (h : run w acts = some w')
    (hw : ∀ msg ∈ heartbeatEnvelopes w.trace, msg = .obj [("op", .num 1), ("d", .num 42)]) :
    ∀ msg ∈ heartbeatEnvelopes w'.trace, msg = .obj [("op", .num 1), ("d", .num 42)] := by
  induction acts generalizing w with
  | nil =>
    simp only [run] at h
    cases h
    exact hw
  | cons a rest ih =>
    simp only [run] at h
    cases hstep : step w a with
    | none => rw [hstep] at h; cases h
    | some w1 =>
      rw [hstep] at h
      refine ih w1 h ?_
      intro msg hm
      rcases step_heartbeatEnvelopes w w1 a hstep msg hm with h1 | h1
      · exact hw msg h1
      · exact h1

/-- C9, refuted as stated: a Hello starts heartbeat loop 0, then a dispatch
with sequence number 7 is read; the heartbeat written afterwards carries
`d = 42`, not 7. -/
theorem heartbeat_sequence_counterexample :
    (run (init sampleToken sampleURL)
        [.read (some (helloMessage 41250)),
         .read (some (.obj [("op", .num 0), ("d", .obj []), ("s", .num 7),
                            ("t", .str "MESSAGE_CREATE")])),
         .hbWake 0]).map
      (fun w => (lastSeq w.trace, (heartbeatEnvelopes w.trace).map envelopeOp,
                 (heartbeatEnvelopes w.trace).map envelopeData))
      = some (some 7, [some 1], [some (.num 42)]) := by
  decide

/-- C9, amended: in every execution every heartbeat envelope the client
writes is `{"op":1,"d":42}`: op = 1 and the fixed payload 42, whatever
envelopes and sequence numbers were received. -/
theorem heartbeat_payload_is_constant (token url : String) (acts : List Action) (w : World)
    (h : run (init token url) acts = some w) :
    ∀ msg ∈ heartbeatEnvelopes w.trace,
      msg = .obj [("op", .num 1), ("d", .num 42)] ∧
      envelopeOp msg = some 1 ∧ envelopeData msg = some (.num 42) := by
  intro msg hm
  have h1 := run_heartbeatEnvelopes acts (init token url) w h
    (by intro m hm0; simp [init, heartbeatEnvelopes] at hm0) msg hm
  subst h1
  exact ⟨rfl, by decide, by decide⟩

/-- Witness of the amended C9: in the execution of the counterexample the
world `heartbeatSentWorld` is reached, and the envelope heartbeat loop 0 wrote
there, after sequence number 7 was received, is `{"op":1,"d":42}`. -/
theorem heartbeat_payload_is_constant_witness :
    run (init sampleToken sampleURL)
      [.read (some (helloMessage 41250)),
       .read (some (.obj [("op", .num 0), ("d", .obj []), ("s", .num 7),
                          ("t", .str "MESSAGE_CREATE")])),
       .hbWake 0] = some heartbeatSentWorld ∧
    marshalHeartbeat heartbeatValue ∈ heartbeatEnvelopes heartbeatSentWorld.trace ∧
    (marshalHeartbeat heartbeatValue = .obj [("op", .num 1), ("d", .num 42)] ∧
      envelopeOp (marshalHeartbeat heartbeatValue) = some 1 ∧
      envelopeData (marshalHeartbeat heartbeatValue) = some (.num 42)) :=
  ⟨by decide, by decide,
   heartbeat_payload_is_constant sampleToken sampleURL
    [.read (some (helloMessage 41250)),
     .read (some (.obj [("op", .num 0), ("d", .obj []), ("s", .num 7),
                        ("t", .str "MESSAGE_CREATE")])),
     .hbWake 0] heartbeatSentWorld (by decide) (marshalHeartbeat heartbeatValue) (by decide)⟩

/-- C7, the code at the failing inputs.  First execution: after a Hello the
heartbeat loop wakes and enters `WriteJSON` without holding `sendMutex`, so not
all writes are made under the mutex.  Second execution: main holds
`sendMutex` and is inside the `WriteJSON` of the Identify on connection 0
when heartbeat loop 0 enters `WriteJSON` on connection 0; the two writes
overlap. -/
theorem heartbeat_write_bypasses_sendMutex :
    (run (init sampleToken sampleURL)
        [.read (some (helloMessage 41250)), .hbWake 0, .hbReturn 0 false]).map
      (fun w => (w.trace.drop 2, allWritesUnderMutex w.trace))
      = some ([.sleep 41250000000,
               .writeBegin (.heartbeat 0) 0 (.obj [("op", .num 1), ("d", .num 42)]) false,
               .writeEnd (.heartbeat 0) 0 false], false) ∧
    (run (init sampleToken sampleURL)
        [.read (some (helloMessage 0)), .mainLock, .mainWrite, .hbWake 0]).map
      (fun w => (w.sendMutex, w.mainPc, w.heartbeats.map (fun hb => hb.pc), serialized w.trace))
      = some (some .main, .writing 0, [.writing 0], false) := by
  decide

/-- C8, the code at the failing inputs: for the envelopes `{"op":10,"d":{}}`
and `{"op":10,"d":null}` the Hello handling reports no error and starts a
heartbeat loop with interval 0; only for `{"op":10}`, without `d`, does it
fail. -/
theorem hello_without_interval_starts_heartbeat :
    (run (init sampleToken sampleURL) [.read (some (.obj [("op", .num 10), ("d", .obj [])]))]).map
      (fun w => (w.heartbeats, w.reader, w.trace.getLast?))
      = some ([{ interval := 0, bornOn := 0, pc := .sleeping }], .reading,
              some (.startHeartbeat 0 0)) ∧
    (run (init sampleToken sampleURL) [.read (some (.obj [("op", .num 10), ("d", .null)]))]).map
      (fun w => (w.heartbeats, w.reader, w.trace.getLast?))
      = some ([{ interval := 0, bornOn := 0, pc := .sleeping }], .reading,
              some (.startHeartbeat 0 0)) ∧
    (run (init sampleToken sampleURL) [.read (some (.obj [("op", .num 10)]))]).map
      (fun w => (w.heartbeats, w.reader, w.trace.getLast?))
      = some ([], .returned, some (.unmarshalError .unexpectedEnd)) := by
  decide

/-- The envelope `{"op":10}`, without `d`: the Hello payload does not
unmarshal, the Hello handling takes its `return` and the read loop goroutine
is over; after it the read loop performs no read and no dial. -/
theorem hello_without_data_ends_read_loop :
    (run (init sampleToken sampleURL) [.read (some (.obj [("op", .num 10)]))]).map
      (fun w => (w.status, w.reader, w.trace))
      = some (.running, .returned,
          [.recv 0 { Op := 10, Data := none, Seq := none, Event := none, ErrCode := 0, Message := "" },
           .unmarshalError .unexpectedEnd]) ∧
    run (init sampleToken sampleURL)
        [.read (some (.obj [("op", .num 10)])), .read (some (helloMessage 41250))] = none ∧
    run (init sampleToken sampleURL) [.read (some (.obj [("op", .num 10)])), .read none] = none ∧
    run (init sampleToken sampleURL) [.read (some (.obj [("op", .num 10)])), .dial true] = none := by
  decide

/-- Once the read loop has returned, it stays returned: no action brings it
back to `ReadJSON` or to the reconnect loop. -/
theorem reader_returned_is_final (w w' : World) (a : Action) (h : step w a = some w')
    (hr : w.reader = .returned) : w'.reader = .returned := by
  unfold step at h
  split at h
  · cases h
  · cases a with
    | mainLock =>
      simp only at h
      split at h
      · cases h; exact hr
      · cases h
    | mainWrite =>
      simp only at h
      split at h
      · cases h
        simp only [mainWrite, jsonMarshalIdentity]
        split <;> exact hr
      · cases h
    | mainReturn failed =>
      simp only at h
      split at h
      · cases h; exact hr
      · cases h
    | signal =>
      simp only at h
      split at h
      · cases h; exact hr
      · cases h
    | read m =>
      simp only at h
      split at h
      · rename_i hreading _
        rw [hr] at hreading
        cases hreading
      · cases h
    | dial ok =>
      simp only at h
      split at h
      · rename_i hdial
        rw [hr] at hdial
        cases hdial
      · cases h
    | hbWake i =>
      simp only at h
      split at h
      · split at h
        · cases h
          simp only [heartbeatWake]
          split <;> exact hr
        · cases h
      · cases h
    | hbReturn i failed =>
      simp only at h
      split at h
      · split at h
        · cases h; exact hr
        · cases h
      · cases h

/-- The read loop returns only from the Hello handling, when the Hello
payload does not unmarshal: after a successfully read envelope it has
returned only if `op = 10` and `json.Unmarshal(payload.Data, &data)` failed. -/
theorem read_loop_returns_only_on_hello_error (w w' : World) (c : ConnId) (v : JSON)
    (p : DiscordGatewayPayload) (hs : w.status = .running) (hr : w.reader = .reading)
    (hc : w.wsConn = some c) (hv : unmarshalPayload v = .ok p)
    (hstep : step w (.read (some v)) = some w') (hret : w'.reader = .returned) :
    p.Op = 10 ∧ ∃ e, unmarshalHello p.Data { HeartbeatInterval := 0 } = .error e := by
  simp only [step, hs, hr, hc, readerRead, readJSON, hv, handlePayload] at hstep
  simp only [ne_eq, not_true_eq_false, ↓reduceIte, Option.some.injEq] at hstep
  by_cases hop : p.Op = 10
  · refine ⟨hop, ?_⟩
    simp only [hop, ↓reduceIte] at hstep
    cases hh : unmarshalHello p.Data { HeartbeatInterval := 0 } with
    | error e => exact ⟨e, rfl⟩
    | ok d =>
      rw [hh] at hstep
      simp only at hstep
      subst hstep
      simp only [hr] at hret
      cases hret
  · simp only [hop, ↓reduceIte] at hstep
    subst hstep
    simp only [hr] at hret
    cases hret

/-- C10: for every envelope read successfully whose op is not 10, one
iteration of the read loop only logs it: the only new event is the `recv`,
so nothing is written; no heartbeat loop is started, `wsConn` is unchanged,
and the read loop is back in `ReadJSON`, ready for the next read; so no such
opcode value ends the read loop. -/
theorem other_opcodes_are_ignored (w : World) (c : ConnId) (v : JSON) (p : DiscordGatewayPayload)
    (hs : w.status = .running) (hr : w.reader = .reading) (hc : w.wsConn = some c)
    (hv : unmarshalPayload v = .ok p) (hop : p.Op ≠ 10) :
    step w (.read (some v)) = some { w with trace := w.trace ++ [.recv c p] } ∧
    ∃ w', step w (.read (some v)) = some w' ∧
      w'.trace = w.trace ++ [.recv c p] ∧ w'.heartbeats = w.heartbeats ∧
      w'.wsConn = w.wsConn ∧ w'.sendMutex = w.sendMutex ∧ w'.mainPc = w.mainPc ∧
      w'.reader = .reading ∧ w'.status = .running ∧
      ∀ msg, step w' (.read msg) = some (readerRead w' c msg) := by
  have h1 : step w (.read (some v)) = some { w with trace := w.trace ++ [.recv c p] } := by
    simp [step, hs, hr, hc, readerRead, readJSON, hv, handlePayload, hop]
  refine ⟨h1, _, h1, rfl, rfl, rfl, rfl, rfl, hr, hs, ?_⟩
  intro msg
  simp [step, hs, hr, hc]

/-- Witness of C10: the dispatch envelope
`{"op":0,"d":{},"s":7,"t":"MESSAGE_CREATE"}` read at the start. -/
theorem other_opcodes_are_ignored_witness :
    step (init sampleToken sampleURL) (.read (some dispatchMessage))
      = some { (init sampleToken sampleURL) with
                trace := (init sampleToken sampleURL).trace ++
                  [.recv 0 { Op := 0, Data := some (.obj []), Seq := some 7,
                             Event := some "MESSAGE_CREATE", ErrCode := 0, Message := "" }] } ∧
    ∃ w', step (init sampleToken sampleURL) (.read (some dispatchMessage)) = some w' ∧
      w'.trace = (init sampleToken sampleURL).trace ++
        [.recv 0 { Op := 0, Data := some (.obj []), Seq := some 7,
                   Event := some "MESSAGE_CREATE", ErrCode := 0, Message := "" }] ∧
      w'.heartbeats = (init sampleToken sampleURL).heartbeats ∧
      w'.wsConn = (init sampleToken sampleURL).wsConn ∧
      w'.sendMutex = (init sampleToken sampleURL).sendMutex ∧
      w'.mainPc = (init sampleToken sampleURL).mainPc ∧
      w'.reader = .reading ∧ w'.status = .running ∧
      ∀ msg, step w' (.read msg) = some (readerRead w' 0 msg) :=
  other_opcodes_are_ignored (init sampleToken sampleURL) 0 dispatchMessage
    { Op := 0, Data := some (.obj []), Seq := some 7, Event := some "MESSAGE_CREATE",
      ErrCode := 0, Message := "" } rfl rfl rfl (by decide) (by decide)

end DiscordWebsocket
